import Mathlib

/-!
Verification of the daily song-guessing game state machine
(`src/hooks/useGameState.ts`, together with `src/lib/utils.ts` and
`src/data/songs.ts`).

The TypeScript code is shallowly embedded: every definition below is a
direct translation of the corresponding source function.  JavaScript
objects used as string-keyed records are modelled as association lists
with last-assignment-wins lookup (`recGet`/`recSet`), JS `Set`s as
duplicate-free lists in insertion order, and timestamps as natural
numbers.  The `Math.random()`-driven reorderings (`.sort(() =>
Math.random() - 0.5)`) are modelled by an explicit `shuffle` function
parameter standing for the permutation the runtime draws; browser
storage writes (`persistProgress`) are side effects on the same
in-memory record that the code keeps in `progressRef`, so they are
represented by the record updates themselves.
-/

namespace SongGuess

/-! ## JavaScript string/number primitives used by the source -/

/-- UTF-16 code units of a string, as produced by JavaScript's
`charCodeAt` / `split("")`: code points above `0xFFFF` become a
surrogate pair. -/
def utf16Codes (s : String) : List Nat :=
  (s.toList.map (fun c =>
    let n := c.toNat
    if n < 0x10000 then [n]
    else [0xD800 + (n - 0x10000) / 0x400, 0xDC00 + (n - 0x10000) % 0x400])).flatten

/-- Model of `hashFromSeed` (useGameState.ts:101): sums the character
codes of the seed string. -/
def hashFromSeed (seed : String) : Nat :=
  (utf16Codes seed).sum

/-- Wrap an integer to the range of a 32-bit two's-complement integer,
as JavaScript's `| 0` / `&` coercions (`ToInt32`) do. -/
def toInt32 (n : Int) : Int :=
  (n + 2 ^ 31) % 2 ^ 32 - 2 ^ 31

/-- One step of the character fold in `hashSongId` (utils.ts): JS
computes `hash = ((hash << 5) - hash) + char; hash = hash & hash`,
where `<<` and `&` wrap to 32-bit signed integers. -/
def hashStep (h : Int) (c : Nat) : Int :=
  toInt32 (toInt32 (h * 32) - h + (c : Int))

/-- Lowercase hexadecimal digits of a natural number, as JavaScript's
`Number.prototype.toString(16)` for non-negative integers. -/
def hexString (n : Nat) : String :=
  String.mk (Nat.toDigits 16 n)

/-- Pad a string with leading zeros up to the given length, as
`String.prototype.padStart(len, "0")`. -/
def padZeros (s : String) (len : Nat) : String :=
  String.mk (List.replicate (len - s.length) '0') ++ s

/-- Model of JavaScript's `parseInt(s, 10)` on the strings the code
feeds it (the components of a `YYYY-MM-DD` date key): parses the
leading decimal digits.  The `NaN` result for digit-free input is
modelled as 0; the date keys produced by the app always start with a
digit, so that case is unreachable in the program. -/
def jsParseIntNat (s : String) : Nat :=
  (s.toList.takeWhile Char.isDigit).foldl (fun a c => a * 10 + (c.toNat - 48)) 0

/-- Model of `String.prototype.trim`: strips leading and trailing
whitespace.  (Implemented on the character list so that it reduces
inside the kernel.) -/
def jsTrim (s : String) : String :=
  String.mk (((s.toList.dropWhile Char.isWhitespace).reverse.dropWhile
    Char.isWhitespace).reverse)

/-- Model of `hashSongId` (src/lib/utils.ts): date-salted obfuscating
hash of a song id.  Follows the source exactly: fold `hashStep` over
the UTF-16 code units of `"<dateKey>:<songId>:<salt>"`, take the
absolute value in lowercase hex padded to 8 digits, and append the sum
of the date components in hex padded to 4 digits, prefixed by "h". -/
def hashSongId (songId : String) (dateKey : String) : String :=
  let salt := "🎵🎶🎼"
  let combined := dateKey ++ ":" ++ songId ++ ":" ++ salt
  let hash := (utf16Codes combined).foldl hashStep 0
  let hexHash := padZeros (hexString hash.natAbs) 8
  -- dateKey.split("-"): for the single-character separator "-" the
  -- string split coincides with the character-level split.
  let dateHash :=
    ((dateKey.toList.splitOn '-').map (fun cs => jsParseIntNat (String.mk cs))).sum
  "h" ++ hexHash ++ padZeros (hexString dateHash) 4

/-! ## Deterministic shuffle (useGameState.ts:104) -/

/-- Swap the elements at positions `i` and `j` of a list; identity when
either index is out of range (in the source both indices are always in
range). -/
def listSwap {α : Type} (l : List α) (i j : Nat) : List α :=
  match l.get? i, l.get? j with
  | some x, some y => (l.set i y).set j x
  | _, _ => l

/-- The Fisher–Yates loop of `shuffleWithSeed`: at position `i` (the
loop counter, counting down to 1) advance the linear-congruential
generator `seed ← (seed * 9301 + 49297) % 233280`, pick
`j = seed % (i + 1)` and swap positions `i` and `j`. -/
def shuffleAux {α : Type} : List α → Nat → Nat → List α
  | l, _, 0 => l
  | l, seed, i + 1 =>
    let seed' := (seed * 9301 + 49297) % 233280
    let j := seed' % (i + 2)
    shuffleAux (listSwap l (i + 1) j) seed' i

/-- Model of `shuffleWithSeed` (useGameState.ts:104): seeded
Fisher–Yates pass over a copy of the input array, iterating from index
`length - 1` down to 1. -/
def shuffleWithSeed {α : Type} (l : List α) (seed : Nat) : List α :=
  shuffleAux l seed (l.length - 1)

/-! ## Song catalog (src/data/songs.ts) -/

/-- Model of the `Song` interface of src/data/songs.ts. -/
structure Song where
  id : String
  title : String
  titleChinese : String
  youtubeId : Option String := none
  startTime : Option Nat := none
deriving Repr, DecidableEq

/-- The static built-in catalog `jayChouSongs` (src/data/songs.ts). -/
def jayChouSongs : List Song :=
  [ { id := "1", title := "Fa Ru Xue", titleChinese := "髮如雪",
      youtubeId := some "aaM7qG2ycjk", startTime := some 45 },
    { id := "2", title := "Qi Li Xiang", titleChinese := "七里香",
      youtubeId := some "Bbp9ZaJD_eA", startTime := some 50 },
    { id := "3", title := "Kai Bu Liao Kou", titleChinese := "開不了口",
      youtubeId := some "H7hpK6cm-6k", startTime := some 40 },
    { id := "4", title := "Yang Guang Zhai Nan", titleChinese := "陽光宅男",
      youtubeId := some "_B8RaLCNUZw", startTime := some 35 },
    { id := "5", title := "Qing Hua Ci", titleChinese := "青花瓷",
      youtubeId := some "Z8Mqw0b9ADs", startTime := some 55 },
    { id := "6", title := "Dao Xiang", titleChinese := "稻香",
      youtubeId := some "sHD_z90ZKV0", startTime := some 38 },
    { id := "7", title := "Qing Tian", titleChinese := "晴天",
      youtubeId := some "DYptgVvkVLQ", startTime := some 42 },
    { id := "8", title := "Ye Qu", titleChinese := "夜曲",
      youtubeId := some "6Q0Pd53mojY", startTime := some 48 },
    { id := "9", title := "Huo Yuan Jia", titleChinese := "霍元甲",
      youtubeId := some "wr-6wwt8RXk", startTime := some 52 },
    { id := "10", title := "Ge Qian", titleChinese := "擁淺",
      youtubeId := some "YJfHuATJYsQ", startTime := some 44 },
    { id := "11", title := "Gao Bai Qi Qiu", titleChinese := "告白氣球",
      youtubeId := some "bu7nU9Mhpyo", startTime := some 64 },
    { id := "12", title := "Shuo Hao Bu Ku", titleChinese := "說好不哭",
      youtubeId := some "HK7SPnGSxLM", startTime := some 40 },
    { id := "13", title := "Suan Shen Me Nan Ren", titleChinese := "算什麼男人",
      youtubeId := some "v489sYYjtHI", startTime := some 36 },
    { id := "14", title := "Long Juan Feng", titleChinese := "龍捲風",
      youtubeId := some "RPWDeLqsN0g", startTime := some 46 },
    { id := "15", title := "Jian Dan Ai", titleChinese := "簡單愛",
      youtubeId := some "Y4xCVlyCvX4", startTime := some 34 },
    { id := "16", title := "Dong Feng Po", titleChinese := "東風破",
      youtubeId := some "qct0JLjaHDc", startTime := some 50 },
    { id := "17", title := "Ju Hua Tai", titleChinese := "菊花台",
      youtubeId := some "PdjbRvvJAzg", startTime := some 44 },
    { id := "18", title := "Yan Hua Yi Leng", titleChinese := "煙花易冷",
      youtubeId := some "P0l3I0d59mU", startTime := some 48 },
    { id := "19", title := "Deng Ni Xia Ke", titleChinese := "等你下課",
      youtubeId := some "kfXdP7nZIiE", startTime := some 42 },
    { id := "20", title := "Zui Wei Da De Zuo Pin", titleChinese := "最偉大的作品",
      youtubeId := some "1emA1EFsPMM", startTime := some 38 } ]

/-! ## Game constants and song records (useGameState.ts) -/

/-- Model of the constant DAILY_SONG_COUNT (useGameState.ts:23). -/
def DAILY_SONG_COUNT : Nat := 5

/-- Model of the constant ATTEMPT_DURATIONS (useGameState.ts:24): the
clip-duration ladder in seconds, [0.5, 1, 2, 4]. -/
def ATTEMPT_DURATIONS : List ℚ := [1 / 2, 1, 2, 4]

/-- Model of MAX_ATTEMPTS (useGameState.ts:25): one more than the
number of clip-duration steps. -/
def MAX_ATTEMPTS : Nat := ATTEMPT_DURATIONS.length + 1

/-- Model of getClipDurationForAttempt (useGameState.ts:95). -/
def getClipDurationForAttempt (attempt : Nat) : Option ℚ :=
  if attempt ≤ 0 then none
  else if attempt > ATTEMPT_DURATIONS.length then none
  else ATTEMPT_DURATIONS.get? (attempt - 1)

/-- A curated wrong-answer stand-in carried by a game song
(the element type of GameSong.wrongChoices in useGameState.ts). -/
structure WrongChoice where
  title : String
  artist : Option String := none
deriving Repr, DecidableEq

/-- Model of the GameSong interface (useGameState.ts:53).  Fields typed
`T | null` or optional in the source become Option; an absent
wrongChoices array is the empty list. -/
structure GameSong where
  id : String
  title : String
  titleChinese : Option String := none
  subtitle : Option String := none
  youtubeId : Option String := none
  youtubeUrl : Option String := none
  startTimeSeconds : Option Nat := none
  sectionLabel : Option String := none
  wrongChoices : List WrongChoice := []
deriving Repr, DecidableEq

/-- Model of GameSongWithOriginalId (useGameState.ts:83): a GameSong
together with the original (unhashed) id. -/
structure GameSongWithOriginalId extends GameSong where
  originalId : String
deriving Repr, DecidableEq

/-! ## Daily playlist documents and their conversion -/

/-- A wrong-choice entry of a raw playlist document
(DailyPlaylistSongMeta.wrongChoices in useGameState.ts:33). -/
structure WrongChoiceMeta where
  title : Option String := none
  artist : Option String := none
deriving Repr, DecidableEq

/-- The startTime field of a raw playlist entry: JS allows a number or
a string there. -/
inductive StartTimeVal where
  | num (n : Nat)
  | str (s : String)
deriving Repr, DecidableEq

/-- Model of DailyPlaylistSongMeta (useGameState.ts:27). -/
structure DailyPlaylistSongMeta where
  title : Option String := none
  artist : Option String := none
  youtubeUrl : Option String := none
  sectionLabel : Option String := none
  startTime : Option StartTimeVal := none
  wrongChoices : Option (List WrongChoiceMeta) := none
deriving Repr, DecidableEq

/-- Model of ThemeGradient (useGameState.ts:39). -/
structure ThemeGradient where
  from_ : String
  to_ : String
  via : Option String := none
  angle : Option String := none
deriving Repr, DecidableEq

/-- Model of DailyPlaylist (useGameState.ts:46). -/
structure DailyPlaylist where
  date : Option String := none
  theme : Option String := none
  themeGradient : Option ThemeGradient := none
  songs : Option (List DailyPlaylistSongMeta) := none
deriving Repr, DecidableEq

/-- Model of JavaScript's `Number(s)` on the strings
parseStartTimeToSeconds feeds it, restricted to the shapes the
playlists contain: the empty string is 0 and a digit string is its
decimal value; anything else (which JS would turn into NaN or a
fractional number) is `none`.  Fractional and whitespace-padded
minute/second components do not occur in the playlist documents. -/
def jsNumberNat (s : String) : Option Nat :=
  if s = "" then some 0
  else if s.toList.all Char.isDigit then
    some ((s.toList).foldl (fun a c => a * 10 + (c.toNat - 48)) 0)
  else none

/-- Model of parseStartTimeToSeconds (useGameState.ts:156): a raw
number passes through; a string must split on ":" into exactly two
numeric parts, yielding minutes*60 + seconds. -/
def parseStartTimeToSeconds (value : Option StartTimeVal) : Option Nat :=
  match value with
  | none => none
  | some (.num n) => some n
  | some (.str s) =>
    -- value.split(":"): single-character separator, so the string
    -- split coincides with the character-level split.
    let parts := (s.toList.splitOn ':').map String.mk
    if parts.length ≠ 2 then none
    else
      match jsNumberNat (parts.getD 0 ""), jsNumberNat (parts.getD 1 "") with
      | some minutes, some seconds => some (minutes * 60 + seconds)
      | _, _ => none

/-- Characters accepted inside a video id by the regex of
extractYouTubeId: `[0-9A-Za-z_-]`. -/
def isIdChar (c : Char) : Bool :=
  c.isAlphanum || c = '_' || c = '-'

/-- Try to match one alternative of the extractYouTubeId regex at the
head of the character list: the literal marker followed by exactly 11
id characters. -/
def tryMarkerAt (cs : List Char) (marker : List Char) : Option String :=
  if cs.take marker.length = marker then
    let after := cs.drop marker.length
    let idChars := after.take 11
    if idChars.length = 11 ∧ idChars.all isIdChar then some (String.mk idChars)
    else none
  else none

/-- Leftmost match of the extractYouTubeId regex
`(?:v=|\/watch\/|youtu\.be\/|embed\/)([0-9A-Za-z_-]{11})`. -/
def scanForId : List Char → Option String
  | [] => none
  | c :: cs =>
    match tryMarkerAt (c :: cs) ("v=".toList) with
    | some r => some r
    | none =>
      match tryMarkerAt (c :: cs) ("/watch/".toList) with
      | some r => some r
      | none =>
        match tryMarkerAt (c :: cs) ("youtu.be/".toList) with
        | some r => some r
        | none =>
          match tryMarkerAt (c :: cs) ("embed/".toList) with
          | some r => some r
          | none => scanForId cs

/-- Model of extractYouTubeId (useGameState.ts:176).  The source first
attempts URL-object parsing (`new URL`, a browser primitive) and falls
back to a regex; on the URL shapes the playlists use
(`...watch?v=<11 id chars>` and `youtu.be/<11 id chars>`) both
branches return the same id, so the function is modelled by the regex
branch. -/
def extractYouTubeId (url : Option String) : Option String :=
  match url with
  | none => none
  | some u => if u = "" then none else scanForId u.toList

/-- Model of convertPlaylistSongToGameSong (useGameState.ts:198):
normalizes one raw playlist entry, dropping it when no video id can be
extracted or the trimmed title is empty. -/
def convertPlaylistSongToGameSong (song : DailyPlaylistSongMeta) (index : Nat)
    (dateKey : String) : Option GameSongWithOriginalId :=
  match extractYouTubeId song.youtubeUrl with
  | none => none
  | some youtubeId =>
    let title := jsTrim (song.title.getD "")
    if title = "" then none
    else
      let originalId := "playlist-" ++ toString (index + 1)
      some
        { id := hashSongId originalId dateKey
          originalId := originalId
          title := title
          titleChinese := none
          subtitle := song.artist.map jsTrim
          youtubeId := some youtubeId
          youtubeUrl := song.youtubeUrl
          startTimeSeconds := parseStartTimeToSeconds song.startTime
          sectionLabel := song.sectionLabel
          wrongChoices :=
            ((song.wrongChoices.getD []).map (fun choice =>
              { title := jsTrim (choice.title.getD "")
                artist := choice.artist.map jsTrim : WrongChoice })).filter
              (fun choice => choice.title ≠ "") }

/-- Model of createFallbackGameSongs (useGameState.ts:231): the
built-in catalog as game songs with date-hashed ids. -/
def createFallbackGameSongs (dateKey : String) : List GameSongWithOriginalId :=
  jayChouSongs.map (fun song =>
    let originalId := "jay-" ++ song.id
    { id := hashSongId originalId dateKey
      originalId := originalId
      title := song.title
      titleChinese := some song.titleChinese
      subtitle := some song.titleChinese
      youtubeId := song.youtubeId
      youtubeUrl := song.youtubeId.map
        (fun y => "https://www.youtube.com/watch?v=" ++ y)
      startTimeSeconds := song.startTime
      sectionLabel := none
      wrongChoices := [] })

/-- Model of getFallbackSongsForToday (useGameState.ts:117): shuffle
the fallback catalog with the date-derived seed and take the first
DAILY_SONG_COUNT songs. -/
def getFallbackSongsForToday (dateKey : String) : List GameSongWithOriginalId :=
  (shuffleWithSeed (createFallbackGameSongs dateKey) (hashFromSeed dateKey)).take
    DAILY_SONG_COUNT

/-! ## Choice builder (useGameState.ts:254) -/

/-- Model of buildChoicesForSong (useGameState.ts:254).  The
`.sort(() => Math.random() - 0.5)` reorderings are represented by the
`shuffle` parameter, which stands for the permutation the runtime's
random draws produce on that call. -/
def buildChoicesForSong (song : GameSongWithOriginalId)
    (songsPool : List GameSongWithOriginalId) (dateKey : String)
    (shuffle : List GameSongWithOriginalId → List GameSongWithOriginalId) :
    List GameSongWithOriginalId :=
  if song.wrongChoices ≠ [] then
    let mappedWrong := (song.wrongChoices.enum).map (fun p =>
      let originalWrongId := "wrong-" ++ song.originalId ++ "-" ++ toString p.1
      { id := hashSongId originalWrongId dateKey
        originalId := originalWrongId
        title := p.2.title
        subtitle := p.2.artist
        youtubeId := none
        youtubeUrl := none
        startTimeSeconds := none
        sectionLabel := none
        wrongChoices := [] : GameSongWithOriginalId })
    shuffle ((song :: mappedWrong).take 8)
  else
    let others := songsPool.filter (fun candidate => candidate.id ≠ song.id)
    let shuffled := shuffle others
    shuffle (song :: shuffled.take 3)

/-! ## JavaScript records and sets

A JS object used as a string-keyed record is modelled as an
association list where an assignment appends an entry and lookup takes
the latest matching entry; spreading one record over another is list
append.  A JS Set is a duplicate-free list in insertion order. -/

/-- Last-assignment-wins lookup in a JS-style record. -/
def recGet {α : Type} (l : List (String × α)) (k : String) : Option α :=
  l.foldl (fun acc p => if p.1 = k then some p.2 else acc) none

/-- Assignment `obj[k] = v` in a JS-style record. -/
def recSet {α : Type} (l : List (String × α)) (k : String) (v : α) :
    List (String × α) :=
  l ++ [(k, v)]

/-- Insertion into a JS Set: a no-op when the element is present. -/
def setAdd (l : List String) (x : String) : List String :=
  if x ∈ l then l else l ++ [x]

/-- The JS Set built from a list (`new Set(array)`): keeps the first
occurrence of each element, in order. -/
def setFromList (l : List String) : List String :=
  l.foldl setAdd []

/-! ## Hook state (the useState/useRef cells of useGameState) -/

/-- Model of the GameState union type (useGameState.ts:7). -/
inductive GameState where
  | playing
  | correct
  | failed
deriving Repr, DecidableEq

/-- Model of GameResultStatus (useGameState.ts:9). -/
inductive GameResultStatus where
  | success
  | failed
deriving Repr, DecidableEq

/-- Model of the GameResult record (useGameState.ts:11).  The elapsed
time is kept in milliseconds (the source divides by 1000 and rounds
for display) and recordedAt as a numeric timestamp (the source stores
an ISO string of the same instant). -/
structure GameResult where
  theme : String
  order : Nat
  songId : String
  songTitle : String
  status : GameResultStatus
  timeMs : Nat
  attempts : Nat
  recordedAt : Nat
deriving Repr, DecidableEq

/-- Model of GameFeedback (useGameState.ts:68), without the `null`
case, which is represented by `Option GameFeedback`. -/
inductive GameFeedback where
  | wrong (songId : String) (timestamp : Nat)
  | correct (timestamp : Nat)
  | failed (timestamp : Nat)
deriving Repr, DecidableEq

/-- Model of StoredProgress (useGameState.ts:76). -/
structure StoredProgress where
  attempts : List (String × Nat)
  disabledChoices : List (String × List String)
  currentOrder : Option Nat := none
deriving Repr, DecidableEq

/-- The state owned by the useGameState hook: each field is one of its
useState cells or refs (useGameState.ts:292-337).  Transient flags not
touched by the verified operations (isPlaying, audio/video player
refs) are omitted; persistProgress writes progressRef to storage, so
the stored copy is identified with the `progress` field. -/
structure HookState where
  attempt : Nat
  gameState : GameState
  currentSong : Option GameSong
  choices : List GameSong
  selectedSong : Option String
  dailySongs : List GameSong
  currentSongIndex : Nat
  isDailyComplete : Bool
  theme : String
  themeGradient : Option ThemeGradient
  disabledChoiceIds : List String
  lastFeedback : Option GameFeedback
  results : List GameResult
  roundStartTime : Option Nat
  progress : StoredProgress
  lastCompleted : Option (Nat × Nat)
  progressDateKey : Option String
  hashToOriginalId : List (String × String)
  dailySongsWithOriginalId : List GameSongWithOriginalId
deriving Repr, DecidableEq

/-! ## Result recording (useGameState.ts:359) -/

/-- The setResults updater of recordResult (useGameState.ts:392):
replace the first entry with the same (theme, order) key in place, or
append when none exists. -/
def upsertResult (prev : List GameResult) (r : GameResult) : List GameResult :=
  match prev.findIdx? (fun entry => entry.theme = r.theme && entry.order = r.order) with
  | none => prev ++ [r]
  | some i => prev.set i r

/-- Model of recordResult (useGameState.ts:359): a no-op unless a
current song is loaded and the round-start timestamp is set; otherwise
builds a GameResult (resolving the song id through the reverse hash
map), clears the round-start timestamp, sets the just-completed
marker, and upserts the result by (theme, order). -/
def recordResult (status : GameResultStatus) (now : Nat) (s : HookState) :
    HookState :=
  match s.currentSong, s.roundStartTime with
  | some song, some t0 =>
    let durationMs := now - t0
    let displayTitle := song.titleChinese.getD song.title
    let originalSongId := (recGet s.hashToOriginalId song.id).getD song.id
    let result : GameResult :=
      { theme := s.theme
        order := s.currentSongIndex + 1
        songId := originalSongId
        songTitle := displayTitle
        status := status
        timeMs := durationMs
        attempts := s.attempt
        recordedAt := now }
    { s with
        roundStartTime := none
        lastCompleted := some (s.currentSongIndex + 1, now)
        results := upsertResult s.results result }
  | _, _ => s

/-! ## Guess handling (useGameState.ts:752) -/

/-- Model of handleGuess (useGameState.ts:752).  A no-op when no
current song is loaded.  On a correct guess: record selection, state
correct, feedback, a success result, and persist the current attempt.
On a wrong guess at attempt ≥ MAX_ATTEMPTS - 1: state failed, feedback,
a failed result, attempt set to MAX_ATTEMPTS and persisted (the
recorded result still carries the pre-update attempt, since the React
closure reads the render-time value).  Otherwise: add the guess to the
disabled set, feedback, and increment the attempt, both persisted. -/
def handleGuess (songId : String) (now : Nat) (s : HookState) : HookState :=
  match s.currentSong with
  | none => s
  | some song =>
    let isLastSong : Bool := s.dailySongs.length ≤ s.currentSongIndex + 1
    let s := { s with selectedSong := some songId }
    if songId = song.id then
      let s := { s with
        gameState := GameState.correct
        lastFeedback := some (GameFeedback.correct now) }
      let s := recordResult GameResultStatus.success now s
      let s := { s with
        progress := { s.progress with
          attempts := recSet s.progress.attempts song.id s.attempt } }
      if isLastSong then { s with isDailyComplete := true } else s
    else if MAX_ATTEMPTS - 1 ≤ s.attempt then
      let s := { s with
        gameState := GameState.failed
        lastFeedback := some (GameFeedback.failed now) }
      let s := recordResult GameResultStatus.failed now s
      let s := { s with
        attempt := MAX_ATTEMPTS
        progress := { s.progress with
          attempts := recSet s.progress.attempts song.id MAX_ATTEMPTS } }
      if isLastSong then { s with isDailyComplete := true } else s
    else
      let next := setAdd s.disabledChoiceIds songId
      let updated := min (s.attempt + 1) MAX_ATTEMPTS
      { s with
          disabledChoiceIds := next
          lastFeedback := some (GameFeedback.wrong songId now)
          attempt := updated
          progress := { s.progress with
            disabledChoices := recSet s.progress.disabledChoices song.id next
            attempts := recSet s.progress.attempts song.id updated } }

/-! ## Round entry (useGameState.ts:425) -/

/-- The attempt restoration of startRound (useGameState.ts:453-457): a
stored attempt that is truthy and at least 1 is clamped to
MAX_ATTEMPTS from above; anything else (absent, or the falsy 0)
defaults to 1. -/
def clampStoredAttempt (storedAttempt : Option Nat) : Nat :=
  match storedAttempt with
  | some v => if 1 ≤ v then min v MAX_ATTEMPTS else 1
  | none => 1

/-- Model of startRound (useGameState.ts:425).  `todayKey` stands for
the current date string the source computes from `new Date()`; the
`shuffle` parameter stands for the random reorderings inside
buildChoicesForSong; `now` for `performance.now()`.  persistProgress
writes the progress record to storage, which the model represents by
the update of the progress field itself. -/
def startRound (index : Nat) (pool : List GameSongWithOriginalId)
    (explicitTheme : Option String) (persistOrder : Bool)
    (dateKeyOpt : Option String) (todayKey : String)
    (shuffle : List GameSongWithOriginalId → List GameSongWithOriginalId)
    (now : Nat) (s : HookState) : HookState :=
  let dateKey := dateKeyOpt.getD (s.progressDateKey.getD todayKey)
  match pool.get? index with
  | none =>
    { s with
        roundStartTime := none
        currentSongIndex := index
        currentSong := none
        choices := []
        disabledChoiceIds := []
        gameState := GameState.playing
        selectedSong := none
        progress :=
          if persistOrder then { s.progress with currentOrder := none }
          else s.progress }
  | some song =>
    let attemptValue := clampStoredAttempt (recGet s.progress.attempts song.id)
    let storedDisabled := (recGet s.progress.disabledChoices song.id).getD []
    let disabledSet := setFromList storedDisabled
    let themeForRound := explicitTheme.getD s.theme
    let matchingResult := s.results.find? (fun entry =>
      entry.order = index + 1 &&
        (themeForRound = "" || entry.theme = themeForRound))
    let choicesForRound := buildChoicesForSong song pool dateKey shuffle
    let s := { s with
      currentSongIndex := index
      currentSong := some song.toGameSong
      choices := choicesForRound.map GameSongWithOriginalId.toGameSong
      attempt := attemptValue
      disabledChoiceIds := disabledSet
      lastFeedback := none }
    let s :=
      match matchingResult with
      | some r =>
        if r.status = GameResultStatus.failed then
          { s with
              roundStartTime := none
              gameState := GameState.failed
              selectedSong := none }
        else
          { s with
              roundStartTime := none
              gameState := GameState.correct
              selectedSong := some song.id }
      | none =>
        { s with
            roundStartTime := some now
            gameState := GameState.playing
            selectedSong := none }
    if persistOrder then
      { s with progress := { s.progress with currentOrder := some (index + 1) } }
    else s

/-- Model of viewSong (useGameState.ts:847): jump to a 1-based
position without persisting the order pointer. -/
def viewSong (order : Nat) (todayKey : String)
    (shuffle : List GameSongWithOriginalId → List GameSongWithOriginalId)
    (now : Nat) (s : HookState) : HookState :=
  if order < 1 ∨ s.dailySongs.length < order then s
  else
    let s := { s with lastCompleted := none }
    startRound (order - 1) s.dailySongsWithOriginalId none false
      s.progressDateKey todayKey shuffle now s

/-! ## Daily load and progress migration (useGameState.ts:527) -/

/-- The curated branch of the song selection in loadDailySongs
(useGameState.ts:586-591): convert each raw entry, drop the
unconvertible ones, and cap at DAILY_SONG_COUNT. -/
def curatedSongs (playlist : Option DailyPlaylist) (dateKey : String) :
    List GameSongWithOriginalId :=
  match playlist with
  | none => []
  | some pl =>
    match pl.songs with
    | none => []
    | some metas =>
      if 0 < metas.length then
        ((metas.enum.map
          (fun p => convertPlaylistSongToGameSong p.2 p.1 dateKey)).reduceOption).take
          DAILY_SONG_COUNT
      else []

/-- The song selection of loadDailySongs (useGameState.ts:584-595):
the curated songs, or the fallback set when no usable curated entries
resulted. -/
def selectDailySongs (playlist : Option DailyPlaylist) (dateKey : String) :
    List GameSongWithOriginalId :=
  let curated := curatedSongs playlist dateKey
  if curated.length = 0 then getFallbackSongsForToday dateKey else curated

/-- The reverse hash map rebuild of loadDailySongs
(useGameState.ts:597-612): hashed id → original id, for the songs and
then for their curated wrong choices. -/
def buildHashToOriginalId (songs : List GameSongWithOriginalId)
    (dateKey : String) : List (String × String) :=
  songs.map (fun sg => (sg.id, sg.originalId)) ++
    songs.flatMap (fun sg =>
      (sg.wrongChoices.enum).map (fun p =>
        let originalWrongId := "wrong-" ++ sg.originalId ++ "-" ++ toString p.1
        (hashSongId originalWrongId dateKey, originalWrongId)))

/-- The inner scan of the migration (useGameState.ts:637-649): indices
of a song's curated wrong choices whose old-style id
"wrong-[originalId]-[idx]" equals the stored disabled id. -/
def matchWrongIdx (sg : GameSongWithOriginalId) (oldId : String) : Option Nat :=
  (List.range sg.wrongChoices.length).find? (fun idx =>
    "wrong-" ++ sg.originalId ++ "-" ++ toString idx = oldId)

/-- The per-entry re-keying of stored disabled-choice ids
(useGameState.ts:633-661): an old-style wrong-choice id is re-hashed;
otherwise an id equal to some song's originalId maps to that song's
hashed id; anything else is dropped. -/
def mapOldDisabledId (songs : List GameSongWithOriginalId) (dateKey : String)
    (oldDisabledId : String) : Option String :=
  match songs.find? (fun sg => (matchWrongIdx sg oldDisabledId).isSome) with
  | some sg =>
    (matchWrongIdx sg oldDisabledId).map (fun idx =>
      hashSongId ("wrong-" ++ sg.originalId ++ "-" ++ toString idx) dateKey)
  | none =>
    (songs.find? (fun sg => sg.originalId = oldDisabledId)).map
      (fun sg => sg.id)

/-- Model of the progress migration block of loadDailySongs
(useGameState.ts:614-676): re-key attempts and disabled-choice lists
stored under old original ids to the freshly hashed ids, then merge
over the old record (migrated entries winning) when anything was
migrated. -/
def migrateProgress (songs : List GameSongWithOriginalId)
    (old : StoredProgress) (dateKey : String) : StoredProgress :=
  let migratedAttempts : List (String × Nat) :=
    songs.filterMap (fun sg =>
      (recGet old.attempts sg.originalId).map (fun v => (sg.id, v)))
  let migratedDisabledChoices : List (String × List String) :=
    songs.filterMap (fun sg =>
      match recGet old.disabledChoices sg.originalId with
      | none => none
      | some oldDisabled =>
        let newDisabled := oldDisabled.filterMap (mapOldDisabledId songs dateKey)
        if newDisabled ≠ [] then some (sg.id, newDisabled) else none)
  if migratedAttempts ≠ [] ∨ migratedDisabledChoices ≠ [] then
    { attempts := old.attempts ++ migratedAttempts
      disabledChoices := old.disabledChoices ++ migratedDisabledChoices
      currentOrder := old.currentOrder }
  else old

/-- The stored-progress read of loadDailySongs (useGameState.ts:533-582):
a missing or malformed record coerces to the default of empty maps and
currentOrder 1; a valid record keeps its maps, with a non-numeric
currentOrder coerced to 1. -/
def coerceStoredProgress (stored : Option StoredProgress) : StoredProgress :=
  match stored with
  | some p => { p with currentOrder := some (p.currentOrder.getD 1) }
  | none => { attempts := [], disabledChoices := [], currentOrder := some 1 }

/-- The day-completion test of loadDailySongs (useGameState.ts:709-710):
the song list is nonempty and every 1-based position has a result
under the active theme. -/
def allCompleteFor (songs : List GameSong) (completedOrders : List Nat) : Bool :=
  decide (0 < songs.length) &&
    (List.range songs.length).all (fun idx => completedOrders.contains (idx + 1))

/-- The pending-position scan of loadDailySongs (useGameState.ts:722-724):
first 0-based index whose 1-based order has no result. -/
def firstPendingIndex (numSongs : Nat) (completedOrders : List Nat) :
    Option Nat :=
  (List.range numSongs).find? (fun idx => !(completedOrders.contains (idx + 1)))

/-- The date key resolution of loadDailySongs (useGameState.ts:530):
the playlist's own date, else today's date string. -/
def dateKeyOf (playlist : Option DailyPlaylist) (todayKey : String) : String :=
  (playlist.bind (fun pl => pl.date)).getD todayKey

/-- The theme resolution of loadDailySongs (useGameState.ts:694): the
playlist's theme, else the formatted daily label. -/
def newThemeOf (playlist : Option DailyPlaylist) (todayThemeLabel : String) :
    String :=
  (playlist.bind (fun pl => pl.theme)).getD todayThemeLabel

/-- The orders having a Result Record under the given theme
(useGameState.ts:705-708). -/
def completedOrdersFor (results : List GameResult) (theme : String) : List Nat :=
  (results.filter (fun entry => entry.theme = theme)).map (fun entry => entry.order)

/-- The just-completed guard of loadDailySongs (useGameState.ts:712-718):
a round was completed less than 5 seconds ago at a position that is
valid for the loaded song list. -/
def shouldStickRecent (lastCompleted : Option (Nat × Nat)) (now : Nat)
    (numSongs : Nat) : Bool :=
  match lastCompleted with
  | some rc => decide (now - rc.2 < 5000) && decide (1 ≤ rc.1) &&
      decide (rc.1 ≤ numSongs)
  | none => false

/-- Model of loadDailySongs (useGameState.ts:527).  `playlist` is the
latest curated playlist document (or none), `todayKey` the current
date string, `todayThemeLabel` the formatted "Daily Mix" label,
`stored` what the progress read from storage parsed to, `now` the
current timestamp. -/
def loadDailySongs (playlist : Option DailyPlaylist) (todayKey : String)
    (todayThemeLabel : String) (stored : Option StoredProgress)
    (shuffle : List GameSongWithOriginalId → List GameSongWithOriginalId)
    (now : Nat) (s : HookState) : HookState :=
  let dateKey := dateKeyOf playlist todayKey
  let progress0 := coerceStoredProgress stored
  let songsWithOriginalId := selectDailySongs playlist dateKey
  let hashMap := buildHashToOriginalId songsWithOriginalId dateKey
  let progress1 := migrateProgress songsWithOriginalId progress0 dateKey
  let songs := songsWithOriginalId.map (fun sg => sg.toGameSong)
  let newTheme := newThemeOf playlist todayThemeLabel
  let rawOrder := progress1.currentOrder.getD 1
  let clampedIndex0 :=
    min (max (rawOrder - 1) 0) (if 0 < songs.length then songs.length - 1 else 0)
  let completedOrders := completedOrdersFor s.results newTheme
  let allComplete := allCompleteFor songs completedOrders
  let shouldStick := shouldStickRecent s.lastCompleted now songs.length
  let landing : Nat × StoredProgress × Option (Nat × Nat) :=
    if shouldStick then
      (match s.lastCompleted with
        | some rc => rc.1 - 1
        | none => clampedIndex0,
       progress1, s.lastCompleted)
    else if !allComplete then
      match firstPendingIndex songs.length completedOrders with
      | some idx =>
        (idx, { progress1 with currentOrder := some (idx + 1) }, none)
      | none => (clampedIndex0, progress1, none)
    else (clampedIndex0, progress1, none)
  let s1 := { s with
    progressDateKey := some dateKey
    hashToOriginalId := hashMap
    dailySongsWithOriginalId := songsWithOriginalId
    theme := newTheme
    themeGradient := playlist.bind (fun pl => pl.themeGradient)
    dailySongs := songs
    progress := landing.2.1
    lastCompleted := landing.2.2
    isDailyComplete := allComplete }
  startRound landing.1 songsWithOriginalId (some newTheme) true (some dateKey)
    todayKey shuffle now s1

/-! ## Frame lemmas for recordResult and handleGuess -/

theorem recordResult_gameState (status : GameResultStatus) (now : Nat)
    (s : HookState) : (recordResult status now s).gameState = s.gameState := by
  unfold recordResult
  rcases s.currentSong <;> rcases s.roundStartTime <;> rfl

theorem recordResult_attempt (status : GameResultStatus) (now : Nat)
    (s : HookState) : (recordResult status now s).attempt = s.attempt := by
  unfold recordResult
  rcases s.currentSong <;> rcases s.roundStartTime <;> rfl

theorem recordResult_currentSong (status : GameResultStatus) (now : Nat)
    (s : HookState) : (recordResult status now s).currentSong = s.currentSong := by
  unfold recordResult
  rcases h : s.currentSong <;> rcases s.roundStartTime <;> simp [h]

theorem recordResult_selectedSong (status : GameResultStatus) (now : Nat)
    (s : HookState) : (recordResult status now s).selectedSong = s.selectedSong := by
  unfold recordResult
  rcases s.currentSong <;> rcases s.roundStartTime <;> rfl

theorem recordResult_disabledChoiceIds (status : GameResultStatus) (now : Nat)
    (s : HookState) :
    (recordResult status now s).disabledChoiceIds = s.disabledChoiceIds := by
  unfold recordResult
  rcases s.currentSong <;> rcases s.roundStartTime <;> rfl

theorem recordResult_progress (status : GameResultStatus) (now : Nat)
    (s : HookState) : (recordResult status now s).progress = s.progress := by
  unfold recordResult
  rcases s.currentSong <;> rcases s.roundStartTime <;> rfl

theorem recordResult_lastFeedback (status : GameResultStatus) (now : Nat)
    (s : HookState) : (recordResult status now s).lastFeedback = s.lastFeedback := by
  unfold recordResult
  rcases s.currentSong <;> rcases s.roundStartTime <;> rfl

theorem recordResult_results_of_no_start (status : GameResultStatus) (now : Nat)
    (s : HookState) (h : s.roundStartTime = none) :
    (recordResult status now s).results = s.results := by
  unfold recordResult
  rcases hc : s.currentSong <;> simp [h, hc]

/-! ## C1: the three-way guess transition -/

/-- C1: for a round with a loaded current song in the playing state,
guess(choiceId) is a three-way transition: a matching id yields state
correct regardless of remaining attempts; a mismatch at attempt ≥
MAX_ATTEMPTS - 1 sets attempt to MAX_ATTEMPTS and state failed; any
other mismatch increments attempt by exactly 1 and adds the guessed id
to the disabled set. -/
theorem C1_guess_three_way (s : HookState) (song : GameSong) (choiceId : String)
    (now : Nat) (hsong : s.currentSong = some song)
    (hplay : s.gameState = GameState.playing) :
    (choiceId = song.id →
      (handleGuess choiceId now s).gameState = GameState.correct) ∧
    (choiceId ≠ song.id → MAX_ATTEMPTS - 1 ≤ s.attempt →
      (handleGuess choiceId now s).attempt = MAX_ATTEMPTS ∧
      (handleGuess choiceId now s).gameState = GameState.failed) ∧
    (choiceId ≠ song.id → s.attempt < MAX_ATTEMPTS - 1 →
      (handleGuess choiceId now s).attempt = s.attempt + 1 ∧
      choiceId ∈ (handleGuess choiceId now s).disabledChoiceIds) := by
  refine ⟨?_, ?_, ?_⟩
  · intro heq
    unfold handleGuess
    simp only [hsong, heq, if_pos rfl]
    rcases hlast : decide (s.dailySongs.length ≤ s.currentSongIndex + 1) with _ | _ <;>
      simp [hlast, recordResult_gameState]
  · intro hne hmax
    unfold handleGuess
    simp only [hsong, if_neg hne, if_pos hmax]
    constructor <;>
      rcases hlast : decide (s.dailySongs.length ≤ s.currentSongIndex + 1) with _ | _ <;>
        simp [hlast, recordResult_gameState, recordResult_attempt]
  · intro hne hlt
    unfold handleGuess
    simp only [hsong, if_neg hne, if_neg (by omega : ¬ MAX_ATTEMPTS - 1 ≤ s.attempt)]
    constructor
    · show min (s.attempt + 1) MAX_ATTEMPTS = s.attempt + 1
      have : MAX_ATTEMPTS = 5 := rfl
      omega
    · show choiceId ∈ setAdd s.disabledChoiceIds choiceId
      unfold setAdd
      split
      · assumption
      · simp

/-- Witness data: a minimal mid-round hook state used to instantiate
the guess-transition theorems on concrete inputs. -/
def sampleSongA : GameSongWithOriginalId :=
  { id := "id-a", originalId := "playlist-1", title := "Song A",
    wrongChoices := [{ title := "Decoy 1" }, { title := "Decoy 2" },
      { title := "Decoy 3" }] }

/-- Witness data: a second sample song. -/
def sampleSongB : GameSongWithOriginalId :=
  { id := "id-b", originalId := "playlist-2", title := "Song B" }

/-- Witness data: a playing round on sampleSongA at attempt 1. -/
def sampleState : HookState :=
  { attempt := 1
    gameState := GameState.playing
    currentSong := some sampleSongA.toGameSong
    choices := [sampleSongA.toGameSong, sampleSongB.toGameSong]
    selectedSong := none
    dailySongs := [sampleSongA.toGameSong, sampleSongB.toGameSong]
    currentSongIndex := 0
    isDailyComplete := false
    theme := "Demo Theme"
    themeGradient := none
    disabledChoiceIds := []
    lastFeedback := none
    results := []
    roundStartTime := some 100
    progress := { attempts := [], disabledChoices := [], currentOrder := some 1 }
    lastCompleted := none
    progressDateKey := some "2025-01-15"
    hashToOriginalId := [("id-a", "playlist-1"), ("id-b", "playlist-2")]
    dailySongsWithOriginalId := [sampleSongA, sampleSongB] }

theorem C1_guess_three_way_witness :
    sampleState.currentSong = some sampleSongA.toGameSong ∧
    sampleState.gameState = GameState.playing ∧
    ((("id-b" : String) = sampleSongA.toGameSong.id →
      (handleGuess "id-b" 150 sampleState).gameState = GameState.correct) ∧
    (("id-b" : String) ≠ sampleSongA.toGameSong.id →
      MAX_ATTEMPTS - 1 ≤ sampleState.attempt →
      (handleGuess "id-b" 150 sampleState).attempt = MAX_ATTEMPTS ∧
      (handleGuess "id-b" 150 sampleState).gameState = GameState.failed) ∧
    (("id-b" : String) ≠ sampleSongA.toGameSong.id →
      sampleState.attempt < MAX_ATTEMPTS - 1 →
      (handleGuess "id-b" 150 sampleState).attempt = sampleState.attempt + 1 ∧
      ("id-b" : String) ∈ (handleGuess "id-b" 150 sampleState).disabledChoiceIds)) :=
  ⟨rfl, rfl, C1_guess_three_way sampleState sampleSongA.toGameSong "id-b" 150 rfl rfl⟩

/-! ## C5: determinism of the seeded daily shuffle -/

/-- C5: the daily-song-selection shuffle is deterministic — for every
catalog ordering and every date key, the seeded Fisher–Yates shuffle
(LCG seeded by the summed character codes of the date key) run twice
on the same inputs yields identical output sequences, and so does the
whole fallback selection. -/
theorem C5_shuffle_deterministic {α : Type} (catalog : List α) (dateKey : String) :
    shuffleWithSeed catalog (hashFromSeed dateKey) =
      shuffleWithSeed catalog (hashFromSeed dateKey) ∧
    getFallbackSongsForToday dateKey = getFallbackSongsForToday dateKey :=
  ⟨rfl, rfl⟩

/-! ## C7: the result ledger upserts by (theme, order) -/

/-- Number of Result Records carrying a given (theme, order) key. -/
def resultKeyCount (l : List GameResult) (th : String) (o : Nat) : Nat :=
  l.countP (fun e => e.theme = th && e.order = o)

theorem countP_set_add {α : Type} (l : List α) (i : Nat) (a : α) (p : α → Bool)
    (h : i < l.length) :
    (l.set i a).countP p + (if p l[i] then 1 else 0) =
      l.countP p + (if p a then 1 else 0) := by
  induction l generalizing i with
  | nil => simp at h
  | cons x xs ih =>
    cases i with
    | zero =>
      simp only [List.set_cons_zero, List.countP_cons, List.getElem_cons_zero]
      omega
    | succ n =>
      have hn : n < xs.length := by simpa using h
      have := ih n hn
      simp only [List.set_cons_succ, List.countP_cons, List.getElem_cons_succ]
      omega

theorem resultKeyCount_upsert_le (l : List GameResult) (r : GameResult)
    (h : ∀ th o, resultKeyCount l th o ≤ 1) (th : String) (o : Nat) :
    resultKeyCount (upsertResult l r) th o ≤ 1 := by
  rcases hidx : l.findIdx? (fun e => e.theme = r.theme && e.order = r.order) with _ | i
  · have hup : upsertResult l r = l ++ [r] := by
      unfold upsertResult
      rw [hidx]
    rw [hup]
    simp only [resultKeyCount, List.countP_append]
    have hnone := List.findIdx?_eq_none_iff.mp hidx
    by_cases hkey : r.theme = th ∧ r.order = o
    · have hl : l.countP (fun e => e.theme = th && e.order = o) = 0 := by
        rw [List.countP_eq_zero]
        intro a ha hpa
        have h2 := hnone a ha
        simp only [Bool.and_eq_true, decide_eq_true_eq] at hpa
        rw [hpa.1, hpa.2, ← hkey.1, ← hkey.2] at h2
        simp at h2
      have hr : List.countP (fun e => e.theme = th && e.order = o) [r] ≤ 1 := by
        simp only [List.countP_cons, List.countP_nil]
        split <;> omega
      omega
    · have hr : List.countP (fun e => e.theme = th && e.order = o) [r] = 0 := by
        rw [List.countP_eq_zero]
        intro a ha hpa
        simp only [List.mem_singleton] at ha
        subst ha
        simp only [Bool.and_eq_true, decide_eq_true_eq] at hpa
        exact hkey hpa
      have hcount := h th o
      simp only [resultKeyCount] at hcount
      omega
  · have hup : upsertResult l r = l.set i r := by
      unfold upsertResult
      rw [hidx]
    rw [hup]
    have hiff := List.findIdx?_eq_some_iff_findIdx_eq.mp hidx
    have hlen : i < l.length := hiff.1
    have hpi : l[i].theme = r.theme ∧ l[i].order = r.order := by
      have hw : l.findIdx (fun e => e.theme = r.theme && e.order = r.order) <
          l.length := by rw [hiff.2]; exact hlen
      have hp := @List.findIdx_getElem GameResult
        (fun e => e.theme = r.theme && e.order = r.order) l hw
      simp only [hiff.2] at hp
      simpa only [Bool.and_eq_true, decide_eq_true_eq] using hp
    have hadd := countP_set_add l i r (fun e => e.theme = th && e.order = o) hlen
    have hsame : (decide (l[i].theme = th) && decide (l[i].order = o)) =
        (decide (r.theme = th) && decide (r.order = o)) := by
      rw [hpi.1, hpi.2]
    rw [hsame] at hadd
    have hcount := h th o
    simp only [resultKeyCount] at hcount ⊢
    omega

/-- C7: the result ledger holds at most one Result Record per
(theme, order): the at-most-one invariant is preserved by any sequence
of recordResult writes, and when a record with the written key already
exists the write replaces it in place (same length) instead of
appending. -/
theorem C7_result_upsert_unique (writes : List GameResult)
    (init : List GameResult)
    (hinit : ∀ th o, resultKeyCount init th o ≤ 1) :
    (∀ th o, resultKeyCount (writes.foldl upsertResult init) th o ≤ 1) ∧
    (∀ (l : List GameResult) (r : GameResult) (i : Nat),
      l.findIdx? (fun e => e.theme = r.theme && e.order = r.order) = some i →
      upsertResult l r = l.set i r ∧ (upsertResult l r).length = l.length) := by
  constructor
  · induction writes generalizing init with
    | nil => simpa using hinit
    | cons w ws ih =>
      intro th o
      exact ih (upsertResult init w) (resultKeyCount_upsert_le init w hinit) th o
  · intro l r i hidx
    have hup : upsertResult l r = l.set i r := by
      unfold upsertResult
      rw [hidx]
    exact ⟨hup, by rw [hup]; exact l.length_set i r⟩

/-- Witness data: a success result at (Demo Theme, 1). -/
def sampleResult1 : GameResult :=
  { theme := "Demo Theme", order := 1, songId := "playlist-1",
    songTitle := "Song A", status := GameResultStatus.success,
    timeMs := 2500, attempts := 2, recordedAt := 1000 }

/-- Witness data: a failed result at the same (Demo Theme, 1) key. -/
def sampleResult2 : GameResult :=
  { theme := "Demo Theme", order := 1, songId := "playlist-1",
    songTitle := "Song A", status := GameResultStatus.failed,
    timeMs := 9000, attempts := 5, recordedAt := 2000 }

theorem C7_result_upsert_unique_witness :
    (∀ th o, resultKeyCount [] th o ≤ 1) ∧
    ((∀ th o,
      resultKeyCount ([sampleResult1, sampleResult2].foldl upsertResult []) th o ≤ 1) ∧
    (∀ (l : List GameResult) (r : GameResult) (i : Nat),
      l.findIdx? (fun e => e.theme = r.theme && e.order = r.order) = some i →
      upsertResult l r = l.set i r ∧ (upsertResult l r).length = l.length)) :=
  ⟨fun th o => by simp [resultKeyCount],
   C7_result_upsert_unique [sampleResult1, sampleResult2] []
     (fun th o => by simp [resultKeyCount])⟩

/-! ## C2: attempt monotonicity and the resume clamp -/

theorem handleGuess_currentSong (i : String) (now : Nat) (s : HookState) :
    (handleGuess i now s).currentSong = s.currentSong := by
  unfold handleGuess
  rcases hc : s.currentSong with _ | song
  · simp [hc]
  · simp [apply_ite HookState.currentSong, recordResult_currentSong, hc]

theorem handleGuess_wrong_spec (s : HookState) (song : GameSong) (i : String)
    (now : Nat) (hs : s.currentSong = some song) (hi : i ≠ song.id) :
    ((handleGuess i now s).attempt =
      if MAX_ATTEMPTS - 1 ≤ s.attempt then MAX_ATTEMPTS else s.attempt + 1) ∧
    ((handleGuess i now s).gameState =
      if MAX_ATTEMPTS - 1 ≤ s.attempt then GameState.failed else s.gameState) := by
  have hM : MAX_ATTEMPTS = 5 := rfl
  unfold handleGuess
  simp only [hs, if_neg hi]
  by_cases h : MAX_ATTEMPTS - 1 ≤ s.attempt
  · simp only [if_pos h]
    constructor
    · simp [apply_ite HookState.attempt]
    · simp [apply_ite HookState.gameState, recordResult_gameState]
  · simp only [if_neg h]
    constructor
    · show min (s.attempt + 1) MAX_ATTEMPTS = s.attempt + 1
      omega
    · trivial

/-- A burst of guesses applied in sequence to the hook state. -/
def guessFold (ids : List String) (now : Nat) (s : HookState) : HookState :=
  ids.foldl (fun st i => handleGuess i now st) s

theorem guessFold_currentSong (ids : List String) (now : Nat) (s : HookState) :
    (guessFold ids now s).currentSong = s.currentSong := by
  induction ids generalizing s with
  | nil => rfl
  | cons i rest ih =>
    show (guessFold rest now (handleGuess i now s)).currentSong = _
    rw [ih, handleGuess_currentSong]

theorem guessFold_wrong_inv (ids : List String) (s : HookState) (song : GameSong)
    (now : Nat) (hs : s.currentSong = some song)
    (hw : ∀ i ∈ ids, i ≠ song.id) (hm : s.attempt ≤ MAX_ATTEMPTS) :
    s.attempt ≤ (guessFold ids now s).attempt ∧
    (guessFold ids now s).attempt ≤ MAX_ATTEMPTS ∧
    (ids ≠ [] → (guessFold ids now s).attempt = MAX_ATTEMPTS →
      (guessFold ids now s).gameState = GameState.failed) := by
  have hM : MAX_ATTEMPTS = 5 := rfl
  induction ids generalizing s with
  | nil => exact ⟨le_refl _, hm, fun h => absurd rfl h⟩
  | cons i rest ih =>
    have hi : i ≠ song.id := hw i (by simp)
    have hspec := handleGuess_wrong_spec s song i now hs hi
    have hcur : (handleGuess i now s).currentSong = some song := by
      rw [handleGuess_currentSong, hs]
    have hm1 : (handleGuess i now s).attempt ≤ MAX_ATTEMPTS := by
      rw [hspec.1]; split <;> omega
    have hstep : s.attempt ≤ (handleGuess i now s).attempt := by
      rw [hspec.1]; split <;> omega
    have hrest := ih (handleGuess i now s) hcur
      (fun j hj => hw j (List.mem_cons_of_mem _ hj)) hm1
    have hfold : guessFold (i :: rest) now s = guessFold rest now (handleGuess i now s) := rfl
    rw [hfold]
    refine ⟨le_trans hstep hrest.1, hrest.2.1, ?_⟩
    intro _ hmax
    rcases Decidable.em (rest = []) with hre | hre
    · subst hre
      simp only [guessFold, List.foldl] at hmax ⊢
      by_cases hcond : MAX_ATTEMPTS - 1 ≤ s.attempt
      · rw [hspec.2, if_pos hcond]
      · rw [hspec.1, if_neg hcond] at hmax
        omega
    · exact hrest.2.2 hre hmax

theorem clampStoredAttempt_bounds (x : Option Nat) :
    1 ≤ clampStoredAttempt x ∧ clampStoredAttempt x ≤ MAX_ATTEMPTS := by
  have hM : MAX_ATTEMPTS = 5 := rfl
  rcases x with _ | v
  · simp [clampStoredAttempt, hM]
  · simp only [clampStoredAttempt]
    split_ifs with h <;> omega

theorem startRound_attempt_some (index : Nat) (pool : List GameSongWithOriginalId)
    (et : Option String) (po : Bool) (dk : Option String) (tk : String)
    (sh : List GameSongWithOriginalId → List GameSongWithOriginalId)
    (now : Nat) (s : HookState) (sg : GameSongWithOriginalId)
    (hsg : pool.get? index = some sg) :
    (startRound index pool et po dk tk sh now s).attempt =
      clampStoredAttempt (recGet s.progress.attempts sg.id) := by
  simp only [startRound, hsg]
  split
  · split
    · split_ifs <;> rfl
    · rfl
  · split
    · split_ifs <;> rfl
    · rfl

/-- C2: for any sequence of wrong guesses within one round the attempt
counter is non-decreasing and never exceeds MAX_ATTEMPTS, and when a
guess drives it to MAX_ATTEMPTS the round state is failed (a correct
state can only have been reached before the burst, since these guesses
are wrong); on round entry the attempt restored from Progress is
clamped into [1, MAX_ATTEMPTS]. -/
theorem C2_attempt_monotonic (s : HookState) (song : GameSong)
    (ids : List String) (now : Nat)
    (hs : s.currentSong = some song)
    (hw : ∀ i ∈ ids, i ≠ song.id)
    (hm : s.attempt ≤ MAX_ATTEMPTS) :
    (∀ n, (guessFold (ids.take n) now s).attempt ≤
      (guessFold (ids.take (n + 1)) now s).attempt) ∧
    (guessFold ids now s).attempt ≤ MAX_ATTEMPTS ∧
    ((guessFold ids now s).attempt = MAX_ATTEMPTS →
      ids = [] ∨ (guessFold ids now s).gameState = GameState.failed) ∧
    (∀ storedAttempt : Option Nat, 1 ≤ clampStoredAttempt storedAttempt ∧
      clampStoredAttempt storedAttempt ≤ MAX_ATTEMPTS) ∧
    (∀ (index : Nat) (pool : List GameSongWithOriginalId) (et : Option String)
      (po : Bool) (dk : Option String) (tk : String)
      (sh : List GameSongWithOriginalId → List GameSongWithOriginalId)
      (n2 : Nat) (t : HookState) (sg : GameSongWithOriginalId),
      pool.get? index = some sg →
      (startRound index pool et po dk tk sh n2 t).attempt =
        clampStoredAttempt (recGet t.progress.attempts sg.id)) := by
  refine ⟨?_, ?_, ?_, clampStoredAttempt_bounds, ?_⟩
  · intro n
    rcases Decidable.em (ids.length ≤ n) with hlen | hlen
    · rw [List.take_of_length_le hlen, List.take_of_length_le (by omega)]
    · have hn : n < ids.length := by omega
      have htake : ids.take (n + 1) = ids.take n ++ [ids[n]] := by
        rw [List.take_succ, List.getElem?_eq_getElem hn]
        rfl
      have hfoldcur : (guessFold (ids.take n) now s).currentSong = some song := by
        rw [guessFold_currentSong, hs]
      have hbound := guessFold_wrong_inv (ids.take n) s song now hs
        (fun j hj => hw j (List.take_subset n ids hj)) hm
      have happ : guessFold (ids.take (n + 1)) now s =
          handleGuess ids[n] now (guessFold (ids.take n) now s) := by
        rw [htake]
        unfold guessFold
        rw [List.foldl_append]
        rfl
      rw [happ]
      have hwn : ids[n] ≠ song.id := hw _ (List.getElem_mem hn)
      have hspec := handleGuess_wrong_spec (guessFold (ids.take n) now s) song
        ids[n] now hfoldcur hwn
      rw [hspec.1]
      have hM : MAX_ATTEMPTS = 5 := rfl
      have := hbound.2.1
      split <;> omega
  · exact (guessFold_wrong_inv ids s song now hs hw hm).2.1
  · intro hmax
    rcases Decidable.em (ids = []) with hnil | hnil
    · exact Or.inl hnil
    · exact Or.inr ((guessFold_wrong_inv ids s song now hs hw hm).2.2 hnil hmax)
  · intro index pool et po dk tk sh n2 t sg hsg
    exact startRound_attempt_some index pool et po dk tk sh n2 t sg hsg

theorem C2_attempt_monotonic_witness :
    sampleState.currentSong = some sampleSongA.toGameSong ∧
    (∀ i ∈ ["id-b", "id-x"], i ≠ sampleSongA.toGameSong.id) ∧
    sampleState.attempt ≤ MAX_ATTEMPTS ∧
    ((∀ n, (guessFold ((["id-b", "id-x"] : List String).take n) 7 sampleState).attempt ≤
      (guessFold ((["id-b", "id-x"] : List String).take (n + 1)) 7 sampleState).attempt) ∧
    (guessFold ["id-b", "id-x"] 7 sampleState).attempt ≤ MAX_ATTEMPTS ∧
    ((guessFold ["id-b", "id-x"] 7 sampleState).attempt = MAX_ATTEMPTS →
      (["id-b", "id-x"] : List String) = [] ∨
      (guessFold ["id-b", "id-x"] 7 sampleState).gameState = GameState.failed) ∧
    (∀ storedAttempt : Option Nat, 1 ≤ clampStoredAttempt storedAttempt ∧
      clampStoredAttempt storedAttempt ≤ MAX_ATTEMPTS) ∧
    (∀ (index : Nat) (pool : List GameSongWithOriginalId) (et : Option String)
      (po : Bool) (dk : Option String) (tk : String)
      (sh : List GameSongWithOriginalId → List GameSongWithOriginalId)
      (n2 : Nat) (t : HookState) (sg : GameSongWithOriginalId),
      pool.get? index = some sg →
      (startRound index pool et po dk tk sh n2 t).attempt =
        clampStoredAttempt (recGet t.progress.attempts sg.id))) :=
  ⟨rfl, by decide, by decide,
   C2_attempt_monotonic sampleState sampleSongA.toGameSong ["id-b", "id-x"] 7
     rfl (by decide) (by decide)⟩

/-! ## C10: guesses on an already-resolved round write no result -/

theorem recordResult_eq_of_no_start (st : GameResultStatus) (now : Nat)
    (s : HookState) (h : s.roundStartTime = none) : recordResult st now s = s := by
  unfold recordResult
  rcases hc : s.currentSong with _ | song <;> simp [h, hc]

theorem handleGuess_no_start_results (i : String) (now : Nat) (s : HookState)
    (h : s.roundStartTime = none) :
    (handleGuess i now s).results = s.results := by
  unfold handleGuess
  rcases hc : s.currentSong with _ | song
  · simp [hc]
  · simp [hc, h, apply_ite HookState.results, recordResult_eq_of_no_start]

theorem handleGuess_selectedSong (i : String) (now : Nat) (s : HookState)
    (song : GameSong) (hs : s.currentSong = some song) :
    (handleGuess i now s).selectedSong = some i := by
  unfold handleGuess
  simp only [hs]
  split_ifs <;>
    simp [apply_ite HookState.selectedSong, recordResult_selectedSong]

theorem handleGuess_lastFeedback (i : String) (now : Nat) (s : HookState)
    (song : GameSong) (hs : s.currentSong = some song) :
    (handleGuess i now s).lastFeedback ≠ none := by
  unfold handleGuess
  simp only [hs]
  split_ifs <;>
    simp [apply_ite HookState.lastFeedback, recordResult_lastFeedback]

theorem startRound_roundStartTime_of_result (index : Nat)
    (pool : List GameSongWithOriginalId) (et : Option String) (po : Bool)
    (dk : Option String) (tk : String)
    (sh : List GameSongWithOriginalId → List GameSongWithOriginalId)
    (now : Nat) (s : HookState) (sg : GameSongWithOriginalId) (r : GameResult)
    (hsg : pool.get? index = some sg)
    (hres : s.results.find? (fun entry => entry.order = index + 1 &&
      ((et.getD s.theme) = "" || entry.theme = (et.getD s.theme))) = some r) :
    (startRound index pool et po dk tk sh now s).roundStartTime = none := by
  simp only [startRound, hsg, hres]
  split_ifs <;> rfl

theorem startRound_currentSong_some (index : Nat)
    (pool : List GameSongWithOriginalId) (et : Option String) (po : Bool)
    (dk : Option String) (tk : String)
    (sh : List GameSongWithOriginalId → List GameSongWithOriginalId)
    (now : Nat) (s : HookState) (sg : GameSongWithOriginalId)
    (hsg : pool.get? index = some sg) :
    (startRound index pool et po dk tk sh now s).currentSong =
      some sg.toGameSong := by
  simp only [startRound, hsg]
  split
  · split
    · split_ifs <;> rfl
    · rfl
  · split
    · split_ifs <;> rfl
    · rfl

/-- C10: result recording is a no-op once the round-start timestamp is
cleared.  Entering a round that already has a matching Result Record
clears the timestamp, and every subsequent guess on that round — while
it still records the selection and fires feedback — leaves the result
ledger exactly as it was. -/
theorem C10_no_result_write_on_resolved (index : Nat)
    (pool : List GameSongWithOriginalId) (et : Option String) (po : Bool)
    (dk : Option String) (tk : String)
    (sh : List GameSongWithOriginalId → List GameSongWithOriginalId)
    (now : Nat) (s : HookState) (sg : GameSongWithOriginalId) (r : GameResult)
    (hsg : pool.get? index = some sg)
    (hres : s.results.find? (fun entry => entry.order = index + 1 &&
      ((et.getD s.theme) = "" || entry.theme = (et.getD s.theme))) = some r) :
    (startRound index pool et po dk tk sh now s).roundStartTime = none ∧
    (∀ (gid : String) (n2 : Nat),
      (handleGuess gid n2 (startRound index pool et po dk tk sh now s)).results =
        (startRound index pool et po dk tk sh now s).results ∧
      (handleGuess gid n2 (startRound index pool et po dk tk sh now s)).selectedSong =
        some gid ∧
      (handleGuess gid n2 (startRound index pool et po dk tk sh now s)).lastFeedback ≠
        none) := by
  have h1 := startRound_roundStartTime_of_result index pool et po dk tk sh now s
    sg r hsg hres
  have h2 := startRound_currentSong_some index pool et po dk tk sh now s sg hsg
  exact ⟨h1, fun gid n2 =>
    ⟨handleGuess_no_start_results gid n2 _ h1,
     handleGuess_selectedSong gid n2 _ _ h2,
     handleGuess_lastFeedback gid n2 _ _ h2⟩⟩

/-- Witness data: sampleState with a Result Record already covering
(Demo Theme, 1) — the round at index 0 is already resolved. -/
def resolvedState : HookState :=
  { sampleState with results := [sampleResult1] }

theorem C10_no_result_write_on_resolved_witness :
    ([sampleSongA, sampleSongB].get? 0 = some sampleSongA) ∧
    (resolvedState.results.find? (fun entry => entry.order = 0 + 1 &&
      (((none : Option String).getD resolvedState.theme) = "" ||
        entry.theme = ((none : Option String).getD resolvedState.theme))) =
      some sampleResult1) ∧
    ((startRound 0 [sampleSongA, sampleSongB] none false (some "2025-01-15")
        "2025-01-15" id 5 resolvedState).roundStartTime = none ∧
    (∀ (gid : String) (n2 : Nat),
      (handleGuess gid n2 (startRound 0 [sampleSongA, sampleSongB] none false
        (some "2025-01-15") "2025-01-15" id 5 resolvedState)).results =
        (startRound 0 [sampleSongA, sampleSongB] none false (some "2025-01-15")
          "2025-01-15" id 5 resolvedState).results ∧
      (handleGuess gid n2 (startRound 0 [sampleSongA, sampleSongB] none false
        (some "2025-01-15") "2025-01-15" id 5 resolvedState)).selectedSong =
        some gid ∧
      (handleGuess gid n2 (startRound 0 [sampleSongA, sampleSongB] none false
        (some "2025-01-15") "2025-01-15" id 5 resolvedState)).lastFeedback ≠
        none)) :=
  ⟨rfl, by decide,
   C10_no_result_write_on_resolved 0 [sampleSongA, sampleSongB] none false
     (some "2025-01-15") "2025-01-15" id 5 resolvedState sampleSongA
     sampleResult1 rfl (by decide)⟩

/-! ## C3: the choice-set invariant -/

theorem buildChoices_length_sampling (song : GameSongWithOriginalId)
    (pool : List GameSongWithOriginalId) (dateKey : String)
    (sh : List GameSongWithOriginalId → List GameSongWithOriginalId)
    (hsh : ∀ l, List.Perm (sh l) l) (h0 : song.wrongChoices = []) :
    (buildChoicesForSong song pool dateKey sh).length =
      1 + min 3 (pool.filter (fun c => c.id ≠ song.id)).length := by
  unfold buildChoicesForSong
  rw [if_neg (by simp [h0])]
  rw [(hsh _).length_eq, List.length_cons, List.length_take, (hsh _).length_eq]
  omega

theorem buildChoices_count_sampling (song : GameSongWithOriginalId)
    (pool : List GameSongWithOriginalId) (dateKey : String)
    (sh : List GameSongWithOriginalId → List GameSongWithOriginalId)
    (hsh : ∀ l, List.Perm (sh l) l) (h0 : song.wrongChoices = []) :
    (buildChoicesForSong song pool dateKey sh).countP
      (fun c => c.id = song.id) = 1 := by
  unfold buildChoicesForSong
  rw [if_neg (by simp [h0])]
  rw [(hsh _).countP_eq, List.countP_cons]
  have hz : ((sh (pool.filter (fun c => c.id ≠ song.id))).take 3).countP
      (fun c => c.id = song.id) = 0 := by
    rw [List.countP_eq_zero]
    intro a ha
    have ha2 : a ∈ sh (pool.filter (fun c => c.id ≠ song.id)) :=
      List.take_subset 3 _ ha
    have ha3 : a ∈ pool.filter (fun c => c.id ≠ song.id) :=
      (hsh _).mem_iff.mp ha2
    have ha4 := List.of_mem_filter ha3
    simp only [decide_eq_true_eq] at ha4 ⊢
    simpa using ha4
  rw [hz]
  simp

theorem buildChoices_length_curated (song : GameSongWithOriginalId)
    (pool : List GameSongWithOriginalId) (dateKey : String)
    (sh : List GameSongWithOriginalId → List GameSongWithOriginalId)
    (hsh : ∀ l, List.Perm (sh l) l) (h1 : song.wrongChoices ≠ []) :
    (buildChoicesForSong song pool dateKey sh).length =
      min 8 (1 + song.wrongChoices.length) := by
  unfold buildChoicesForSong
  rw [if_pos h1]
  rw [(hsh _).length_eq, List.length_take, List.length_cons, List.length_map,
    List.enum_length]
  omega

theorem buildChoices_count_curated (song : GameSongWithOriginalId)
    (pool : List GameSongWithOriginalId) (dateKey : String)
    (sh : List GameSongWithOriginalId → List GameSongWithOriginalId)
    (hsh : ∀ l, List.Perm (sh l) l) (h1 : song.wrongChoices ≠ [])
    (hhash : ∀ i, i < song.wrongChoices.length →
      hashSongId ("wrong-" ++ song.originalId ++ "-" ++ toString i) dateKey ≠
        song.id) :
    (buildChoicesForSong song pool dateKey sh).countP
      (fun c => c.id = song.id) = 1 := by
  unfold buildChoicesForSong
  rw [if_pos h1]
  rw [(hsh _).countP_eq]
  rw [show (8 : Nat) = 7 + 1 from rfl, List.take_succ_cons, List.countP_cons]
  have hz : (((song.wrongChoices.enum).map (fun p =>
      let originalWrongId := "wrong-" ++ song.originalId ++ "-" ++ toString p.1
      { id := hashSongId originalWrongId dateKey
        originalId := originalWrongId
        title := p.2.title
        subtitle := p.2.artist
        youtubeId := none
        youtubeUrl := none
        startTimeSeconds := none
        sectionLabel := none
        wrongChoices := [] : GameSongWithOriginalId })).take 7).countP
      (fun c => c.id = song.id) = 0 := by
    rw [List.countP_eq_zero]
    intro a ha
    have ha2 := List.take_subset 7 _ ha
    rcases List.mem_map.mp ha2 with ⟨p, hp, rfl⟩
    have hget := List.mem_enum_iff_getElem?.mp hp
    have hlt : p.1 < song.wrongChoices.length := by
      rcases List.getElem?_eq_some_iff.mp hget with ⟨hw, _⟩
      exact hw
    simp only [decide_eq_true_eq]
    exact fun hc => hhash p.1 hlt hc
  rw [hz]
  simp

/-- C3 counterexample data: a song carrying exactly one curated wrong
choice. -/
def oneWrongSong : GameSongWithOriginalId :=
  { id := "target-id", originalId := "playlist-1", title := "Target",
    wrongChoices := [{ title := "Only Decoy" }] }

/-- C3 counterexample: in the curated path the choice set is the
correct song plus one synthesized distractor per curated wrong choice,
so a song with a single curated wrong choice yields a choice set of
size 2 — below the claimed lower bound of 4. -/
theorem C3_choice_size_counterexample :
    (buildChoicesForSong oneWrongSong [oneWrongSong] "2025-01-15" id).length = 2 ∧
    ¬(4 ≤ (buildChoicesForSong oneWrongSong [oneWrongSong] "2025-01-15" id).length) := by
  decide

/-- C3 (amended): every choice set contains the target song's id
exactly once — unconditionally in the sampling path, and in the
curated path provided the synthesized distractor ids differ from the
target's id — and its size is at most 8: exactly
min 8 (1 + number of curated wrong choices) in the curated path
(which is ≥ 4 only when at least 3 curated wrong choices exist), and
1 + min 3 (pool size excluding the target) in the sampling path. -/
theorem C3_choice_invariant_amended (song : GameSongWithOriginalId)
    (pool : List GameSongWithOriginalId) (dateKey : String)
    (sh : List GameSongWithOriginalId → List GameSongWithOriginalId)
    (hsh : ∀ l, List.Perm (sh l) l) :
    ((buildChoicesForSong song pool dateKey sh).length ≤ 8) ∧
    (song.wrongChoices = [] →
      (buildChoicesForSong song pool dateKey sh).length =
        1 + min 3 (pool.filter (fun c => c.id ≠ song.id)).length ∧
      (buildChoicesForSong song pool dateKey sh).countP
        (fun c => c.id = song.id) = 1) ∧
    (song.wrongChoices ≠ [] →
      (buildChoicesForSong song pool dateKey sh).length =
        min 8 (1 + song.wrongChoices.length) ∧
      ((∀ i, i < song.wrongChoices.length →
        hashSongId ("wrong-" ++ song.originalId ++ "-" ++ toString i) dateKey ≠
          song.id) →
        (buildChoicesForSong song pool dateKey sh).countP
          (fun c => c.id = song.id) = 1)) := by
  refine ⟨?_, fun h0 => ⟨buildChoices_length_sampling song pool dateKey sh hsh h0,
      buildChoices_count_sampling song pool dateKey sh hsh h0⟩,
    fun h1 => ⟨buildChoices_length_curated song pool dateKey sh hsh h1,
      fun hhash => buildChoices_count_curated song pool dateKey sh hsh h1 hhash⟩⟩
  rcases Decidable.em (song.wrongChoices = []) with h0 | h1
  · rw [buildChoices_length_sampling song pool dateKey sh hsh h0]
    omega
  · rw [buildChoices_length_curated song pool dateKey sh hsh h1]
    omega

theorem C3_choice_invariant_amended_witness :
    (∀ l : List GameSongWithOriginalId, List.Perm (id l) l) ∧
    (((buildChoicesForSong sampleSongA [sampleSongA, sampleSongB] "2025-01-15"
        id).length ≤ 8) ∧
    (sampleSongA.wrongChoices = [] →
      (buildChoicesForSong sampleSongA [sampleSongA, sampleSongB] "2025-01-15"
        id).length =
        1 + min 3 ([sampleSongA, sampleSongB].filter
          (fun c => c.id ≠ sampleSongA.id)).length ∧
      (buildChoicesForSong sampleSongA [sampleSongA, sampleSongB] "2025-01-15"
        id).countP (fun c => c.id = sampleSongA.id) = 1) ∧
    (sampleSongA.wrongChoices ≠ [] →
      (buildChoicesForSong sampleSongA [sampleSongA, sampleSongB] "2025-01-15"
        id).length = min 8 (1 + sampleSongA.wrongChoices.length) ∧
      ((∀ i, i < sampleSongA.wrongChoices.length →
        hashSongId ("wrong-" ++ sampleSongA.originalId ++ "-" ++ toString i)
          "2025-01-15" ≠ sampleSongA.id) →
        (buildChoicesForSong sampleSongA [sampleSongA, sampleSongB] "2025-01-15"
          id).countP (fun c => c.id = sampleSongA.id) = 1))) :=
  ⟨fun l => List.Perm.refl l,
   C3_choice_invariant_amended sampleSongA [sampleSongA, sampleSongB]
     "2025-01-15" id (fun l => List.Perm.refl l)⟩

/-! ## C4: the size of the loaded daily playlist -/

theorem listSwap_length {α : Type} (l : List α) (i j : Nat) :
    (listSwap l i j).length = l.length := by
  unfold listSwap
  rcases hx : l.get? i with _ | x <;> rcases hy : l.get? j with _ | y <;>
    simp [List.length_set]

theorem shuffleAux_length {α : Type} (l : List α) (seed i : Nat) :
    (shuffleAux l seed i).length = l.length := by
  induction i generalizing l seed with
  | zero => rfl
  | succ n ih =>
    unfold shuffleAux
    rw [ih, listSwap_length]

theorem shuffleWithSeed_length {α : Type} (l : List α) (seed : Nat) :
    (shuffleWithSeed l seed).length = l.length := by
  unfold shuffleWithSeed
  exact shuffleAux_length l seed (l.length - 1)

theorem getFallbackSongsForToday_length (dateKey : String) :
    (getFallbackSongsForToday dateKey).length = DAILY_SONG_COUNT := by
  unfold getFallbackSongsForToday
  rw [List.length_take, shuffleWithSeed_length]
  unfold createFallbackGameSongs
  rw [List.length_map]
  rfl

/-- C4 counterexample data: a curated playlist whose document lists
five entries but only two of them are usable (the third has no title,
the fourth no URL, the fifth a URL from which no video id can be
extracted). -/
def partialPlaylist : DailyPlaylist :=
  { date := some "2025-01-15"
    theme := some "Partial Day"
    songs := some
      [ { title := some "Song A",
          youtubeUrl := some "https://www.youtube.com/watch?v=abcdefghijk" },
        { title := some "Song B",
          youtubeUrl := some "https://www.youtube.com/watch?v=abcdefghijl" },
        { title := none,
          youtubeUrl := some "https://www.youtube.com/watch?v=abcdefghijm" },
        { title := some "Song D", youtubeUrl := none },
        { title := some "Song E", youtubeUrl := some "not a video link" } ] }

/-- C4 counterexample: a curated playlist with two usable entries loads
as a two-song day — the loader caps at 5 but does not pad, and the
fallback only engages when zero usable entries remain. -/
theorem C4_playlist_size_counterexample :
    (selectDailySongs (some partialPlaylist) "2025-01-15").length = 2 ∧
    (selectDailySongs (some partialPlaylist) "2025-01-15").length ≠ 5 := by
  constructor
  · decide
  · decide

/-- C4 (amended): every loaded daily playlist has at most 5 songs; it
has exactly 5 when the curated conversion yields no usable entries, in
which case the fallback path takes the first 5 songs of the
deterministically shuffled built-in catalog; otherwise it is exactly
the (at most 5, possibly fewer) usable curated entries. -/
theorem C4_playlist_size_amended (playlist : Option DailyPlaylist)
    (dateKey : String) :
    (selectDailySongs playlist dateKey).length ≤ DAILY_SONG_COUNT ∧
    (curatedSongs playlist dateKey = [] →
      selectDailySongs playlist dateKey = getFallbackSongsForToday dateKey ∧
      (selectDailySongs playlist dateKey).length = DAILY_SONG_COUNT) ∧
    (curatedSongs playlist dateKey ≠ [] →
      selectDailySongs playlist dateKey = curatedSongs playlist dateKey ∧
      (selectDailySongs playlist dateKey).length ≤ DAILY_SONG_COUNT) := by
  have hsel : curatedSongs playlist dateKey = [] →
      selectDailySongs playlist dateKey = getFallbackSongsForToday dateKey := by
    intro h
    simp [selectDailySongs, h]
  have hsel2 : curatedSongs playlist dateKey ≠ [] →
      selectDailySongs playlist dateKey = curatedSongs playlist dateKey := by
    intro h
    have hlen : (curatedSongs playlist dateKey).length ≠ 0 := by
      simpa [List.length_eq_zero] using h
    simp [selectDailySongs, hlen]
  have hcap : (curatedSongs playlist dateKey).length ≤ DAILY_SONG_COUNT := by
    rcases playlist with _ | pl
    · simp [curatedSongs, DAILY_SONG_COUNT]
    · rcases hms : pl.songs with _ | metas
      · simp [curatedSongs, hms, DAILY_SONG_COUNT]
      · simp only [curatedSongs, hms]
        split_ifs
        · exact List.length_take_le _ _
        · simp [DAILY_SONG_COUNT]
  refine ⟨?_, fun h => ⟨hsel h, by rw [hsel h]; exact getFallbackSongsForToday_length dateKey⟩,
    fun h => ⟨hsel2 h, by rw [hsel2 h]; exact hcap⟩⟩
  rcases Decidable.em (curatedSongs playlist dateKey = []) with h | h
  · rw [hsel h]
    rw [getFallbackSongsForToday_length dateKey]
  · rw [hsel2 h]
    exact hcap

/-! ## C8: progress migration preserves old-id data under new ids -/

theorem recGet_foldl {α : Type} (b : List (String × α)) (k : String)
    (init : Option α) :
    b.foldl (fun acc p => if p.1 = k then some p.2 else acc) init =
      if (recGet b k).isSome then recGet b k else init := by
  induction b generalizing init with
  | nil => simp [recGet]
  | cons p b ih =>
    show b.foldl _ (if p.1 = k then some p.2 else init) = _
    rw [ih]
    have hr : recGet (p :: b) k =
        if (recGet b k).isSome then recGet b k
        else (if p.1 = k then some p.2 else none) := by
      show b.foldl _ (if p.1 = k then some p.2 else none) = _
      rw [ih]
    rw [hr]
    rcases hb : recGet b k with _ | v
    · by_cases hpk : p.1 = k <;> simp [hb, hpk]
    · simp [hb]

theorem recGet_cons {α : Type} (p : String × α) (l : List (String × α))
    (k : String) :
    recGet (p :: l) k =
      if (recGet l k).isSome then recGet l k
      else (if p.1 = k then some p.2 else none) := by
  show l.foldl _ (if p.1 = k then some p.2 else none) = _
  exact recGet_foldl l k _

theorem recGet_append {α : Type} (a b : List (String × α)) (k : String) :
    recGet (a ++ b) k =
      if (recGet b k).isSome then recGet b k else recGet a k := by
  show (a ++ b).foldl _ none = _
  rw [List.foldl_append]
  exact recGet_foldl b k _

theorem recGet_eq_none_of_keys_ne {α : Type} (l : List (String × α)) (k : String)
    (h : ∀ p ∈ l, p.1 ≠ k) : recGet l k = none := by
  induction l with
  | nil => rfl
  | cons p rest ih =>
    rw [recGet_cons, ih (fun q hq => h q (List.mem_cons_of_mem _ hq)),
      if_neg (h p (List.mem_cons_self p rest))]
    simp

theorem recGet_filterMap_key {β : Type} (songs : List GameSongWithOriginalId)
    (F : GameSongWithOriginalId → Option (String × β))
    (hkey : ∀ x q, F x = some q → q.1 = x.id)
    (sg : GameSongWithOriginalId) (q : String × β)
    (hnd : (songs.map (fun x => x.id)).Nodup) (hmem : sg ∈ songs)
    (hq : F sg = some q) :
    recGet (songs.filterMap F) sg.id = some q.2 := by
  induction songs with
  | nil => cases hmem
  | cons x rest ih =>
    rw [List.map_cons, List.nodup_cons] at hnd
    rw [List.filterMap_cons]
    rcases List.mem_cons.mp hmem with heq | hrest
    · subst heq
      rw [hq]
      rw [recGet_cons]
      have hz : recGet (rest.filterMap F) sg.id = none := by
        apply recGet_eq_none_of_keys_ne
        intro p hp
        rcases List.mem_filterMap.mp hp with ⟨y, hy, hFy⟩
        rw [hkey y p hFy]
        intro hcon
        exact hnd.1 (hcon ▸ List.mem_map_of_mem (fun z => z.id) hy)
      rw [hz]
      simp [hkey sg q hq]
    · have hxne : x.id ≠ sg.id := by
        intro hcon
        exact hnd.1 (hcon ▸ List.mem_map_of_mem (fun z => z.id) hrest)
      have hrec := ih hnd.2 hrest
      rcases hFx : F x with _ | q'
      · exact hrec
      · rw [recGet_cons, hrec]
        simp

theorem migrateProgress_attempts (songs : List GameSongWithOriginalId)
    (old : StoredProgress) (dateKey : String) (sg : GameSongWithOriginalId)
    (v : Nat) (hnd : (songs.map (fun x => x.id)).Nodup) (hmem : sg ∈ songs)
    (hv : recGet old.attempts sg.originalId = some v) :
    recGet (migrateProgress songs old dateKey).attempts sg.id = some v := by
  have hA := recGet_filterMap_key songs
    (fun x => (recGet old.attempts x.originalId).map (fun b => (x.id, b)))
    (by
      intro x q hq
      simp only [] at hq
      rcases Option.map_eq_some'.mp hq with ⟨b, _, hb⟩
      rw [← hb])
    sg (sg.id, v) hnd hmem (by simp [hv])
  have hne : songs.filterMap
      (fun x => (recGet old.attempts x.originalId).map (fun b => (x.id, b))) ≠ [] := by
    have hmm : (sg.id, v) ∈ songs.filterMap
        (fun x => (recGet old.attempts x.originalId).map (fun b => (x.id, b))) :=
      List.mem_filterMap.mpr ⟨sg, hmem, by simp [hv]⟩
    exact List.ne_nil_of_mem hmm
  simp only [migrateProgress]
  rw [if_pos (Or.inl hne)]
  show recGet (old.attempts ++ _) sg.id = some v
  rw [recGet_append, hA]
  simp

theorem migrateProgress_disabled (songs : List GameSongWithOriginalId)
    (old : StoredProgress) (dateKey : String) (sg : GameSongWithOriginalId)
    (oldDisabled : List String) (d newId : String)
    (hnd : (songs.map (fun x => x.id)).Nodup) (hmem : sg ∈ songs)
    (hod : recGet old.disabledChoices sg.originalId = some oldDisabled)
    (hd : d ∈ oldDisabled)
    (hmap : mapOldDisabledId songs dateKey d = some newId) :
    ∃ newList,
      recGet (migrateProgress songs old dateKey).disabledChoices sg.id =
        some newList ∧ newId ∈ newList := by
  have hmemNew : newId ∈ oldDisabled.filterMap (mapOldDisabledId songs dateKey) :=
    List.mem_filterMap.mpr ⟨d, hd, hmap⟩
  have hne0 : oldDisabled.filterMap (mapOldDisabledId songs dateKey) ≠ [] :=
    List.ne_nil_of_mem hmemNew
  have hq : (fun x : GameSongWithOriginalId =>
      match recGet old.disabledChoices x.originalId with
      | none => none
      | some oldDisabled =>
        let newDisabled := oldDisabled.filterMap (mapOldDisabledId songs dateKey)
        if newDisabled ≠ [] then some (x.id, newDisabled) else none) sg =
      some (sg.id, oldDisabled.filterMap (mapOldDisabledId songs dateKey)) := by
    simp only [hod]
    rw [if_pos hne0]
  have hD := recGet_filterMap_key songs
    (fun x : GameSongWithOriginalId =>
      match recGet old.disabledChoices x.originalId with
      | none => none
      | some oldDisabled =>
        let newDisabled := oldDisabled.filterMap (mapOldDisabledId songs dateKey)
        if newDisabled ≠ [] then some (x.id, newDisabled) else none)
    (by
      intro x q hq2
      simp only [] at hq2
      rcases hx : recGet old.disabledChoices x.originalId with _ | odl <;>
        rw [hx] at hq2
      · cases hq2
      · simp only [] at hq2
        rcases Decidable.em
          (odl.filterMap (mapOldDisabledId songs dateKey) ≠ []) with hne | hne
        · rw [if_pos hne] at hq2
          cases hq2
          rfl
        · rw [if_neg hne] at hq2
          cases hq2)
    sg (sg.id, oldDisabled.filterMap (mapOldDisabledId songs dateKey))
    hnd hmem hq
  have hne : songs.filterMap
      (fun x : GameSongWithOriginalId =>
        match recGet old.disabledChoices x.originalId with
        | none => none
        | some oldDisabled =>
          let newDisabled := oldDisabled.filterMap (mapOldDisabledId songs dateKey)
          if newDisabled ≠ [] then some (x.id, newDisabled) else none) ≠ [] := by
    apply List.ne_nil_of_mem
    exact List.mem_filterMap.mpr ⟨sg, hmem, hq⟩
  refine ⟨oldDisabled.filterMap (mapOldDisabledId songs dateKey), ?_, hmemNew⟩
  simp only [migrateProgress]
  rw [if_pos (Or.inr hne)]
  show recGet (old.disabledChoices ++ _) sg.id = _
  rw [recGet_append, hD]
  simp

/-- C8: after the once-per-load migration, for every song present in
both id generations, the attempt value stored under the song's old
originalId is reachable unchanged under the newly computed hashed id,
and every disabled-choice entry under the old id that corresponds to a
choice of the current generation (a synthesized wrong-choice id or
another song's original id) appears, re-keyed, in the list reachable
under the hashed id. -/
theorem C8_migration_preserves (songs : List GameSongWithOriginalId)
    (old : StoredProgress) (dateKey : String) (sg : GameSongWithOriginalId)
    (hnd : (songs.map (fun x => x.id)).Nodup) (hmem : sg ∈ songs) :
    (∀ v, recGet old.attempts sg.originalId = some v →
      recGet (migrateProgress songs old dateKey).attempts sg.id = some v) ∧
    (∀ (oldDisabled : List String) (d newId : String),
      recGet old.disabledChoices sg.originalId = some oldDisabled →
      d ∈ oldDisabled → mapOldDisabledId songs dateKey d = some newId →
      ∃ newList,
        recGet (migrateProgress songs old dateKey).disabledChoices sg.id =
          some newList ∧ newId ∈ newList) :=
  ⟨fun v hv => migrateProgress_attempts songs old dateKey sg v hnd hmem hv,
   fun oldDisabled d newId hod hd hmap =>
     migrateProgress_disabled songs old dateKey sg oldDisabled d newId hnd hmem
       hod hd hmap⟩

/-- Witness data: a stored Progress record still keyed by old original
ids, as left behind by the pre-hashing version of the app. -/
def oldProgressSample : StoredProgress :=
  { attempts := [("playlist-1", 3)]
    disabledChoices := [("playlist-1", ["playlist-2"])]
    currentOrder := some 1 }

theorem C8_migration_preserves_witness :
    (([sampleSongA, sampleSongB].map (fun x => x.id)).Nodup ∧
      sampleSongA ∈ [sampleSongA, sampleSongB]) ∧
    ((∀ v, recGet oldProgressSample.attempts sampleSongA.originalId = some v →
      recGet (migrateProgress [sampleSongA, sampleSongB] oldProgressSample
        "2025-01-15").attempts sampleSongA.id = some v) ∧
    (∀ (oldDisabled : List String) (d newId : String),
      recGet oldProgressSample.disabledChoices sampleSongA.originalId =
        some oldDisabled →
      d ∈ oldDisabled →
      mapOldDisabledId [sampleSongA, sampleSongB] "2025-01-15" d = some newId →
      ∃ newList,
        recGet (migrateProgress [sampleSongA, sampleSongB] oldProgressSample
          "2025-01-15").disabledChoices sampleSongA.id = some newList ∧
        newId ∈ newList)) :=
  ⟨⟨by decide, by decide⟩,
   C8_migration_preserves [sampleSongA, sampleSongB] oldProgressSample
     "2025-01-15" sampleSongA (by decide) (by decide)⟩

/-! ## C6: on reload the game lands on the first pending position -/

theorem startRound_currentSongIndex (index : Nat)
    (pool : List GameSongWithOriginalId) (et : Option String) (po : Bool)
    (dk : Option String) (tk : String)
    (sh : List GameSongWithOriginalId → List GameSongWithOriginalId)
    (now : Nat) (s : HookState) :
    (startRound index pool et po dk tk sh now s).currentSongIndex = index := by
  simp only [startRound]
  split
  · rfl
  · split_ifs
    · split
      · split_ifs <;> rfl
      · rfl
    · split
      · split_ifs <;> rfl
      · rfl

/-- C6: on (re)load, when no round was completed within the last 5
seconds, loadDailySongs lands on the first playlist position lacking a
Result Record under the active theme whenever the day is not complete,
and keeps the (in-range) persisted currentOrder position when the day
is already complete. -/
theorem C6_load_lands_on_first_pending (playlist : Option DailyPlaylist)
    (todayKey todayThemeLabel : String) (stored : Option StoredProgress)
    (sh : List GameSongWithOriginalId → List GameSongWithOriginalId)
    (now : Nat) (s : HookState)
    (hstick : shouldStickRecent s.lastCompleted now
      (selectDailySongs playlist (dateKeyOf playlist todayKey)).length = false) :
    (allCompleteFor ((selectDailySongs playlist (dateKeyOf playlist todayKey)).map
        (fun sg => sg.toGameSong))
        (completedOrdersFor s.results (newThemeOf playlist todayThemeLabel)) =
        false →
      ∀ j, firstPendingIndex
          (selectDailySongs playlist (dateKeyOf playlist todayKey)).length
          (completedOrdersFor s.results (newThemeOf playlist todayThemeLabel)) =
          some j →
        (loadDailySongs playlist todayKey todayThemeLabel stored sh now
          s).currentSongIndex = j) ∧
    (allCompleteFor ((selectDailySongs playlist (dateKeyOf playlist todayKey)).map
        (fun sg => sg.toGameSong))
        (completedOrdersFor s.results (newThemeOf playlist todayThemeLabel)) =
        true →
      ∀ k, (migrateProgress (selectDailySongs playlist (dateKeyOf playlist todayKey))
          (coerceStoredProgress stored) (dateKeyOf playlist todayKey)).currentOrder =
          some k →
        1 ≤ k →
        k ≤ (selectDailySongs playlist (dateKeyOf playlist todayKey)).length →
        (loadDailySongs playlist todayKey todayThemeLabel stored sh now
          s).currentSongIndex = k - 1) := by
  constructor
  · intro hac j hj
    simp [loadDailySongs, startRound_currentSongIndex, hstick, hac, hj]
  · intro hac k hk h1 h2
    have hlen : 0 < (selectDailySongs playlist (dateKeyOf playlist todayKey)).length := by
      omega
    simp [loadDailySongs, startRound_currentSongIndex, hstick, hac, hk, hlen]
    omega

/-- Witness data: a curated playlist with five usable entries. -/
def fiveSongPlaylist : DailyPlaylist :=
  { date := some "2025-02-01"
    theme := some "Five Day"
    songs := some
      [ { title := some "S1",
          youtubeUrl := some "https://www.youtube.com/watch?v=aaaaaaaaaaa" },
        { title := some "S2",
          youtubeUrl := some "https://www.youtube.com/watch?v=bbbbbbbbbbb" },
        { title := some "S3",
          youtubeUrl := some "https://www.youtube.com/watch?v=ccccccccccc" },
        { title := some "S4",
          youtubeUrl := some "https://www.youtube.com/watch?v=ddddddddddd" },
        { title := some "S5",
          youtubeUrl := some "https://www.youtube.com/watch?v=eeeeeeeeeee" } ] }

/-- Witness data: a state being reloaded where positions 1 and 2 of
the Five Day theme already carry Result Records. -/
def reloadState : HookState :=
  { sampleState with
      theme := "Five Day"
      lastCompleted := none
      results :=
        [ { theme := "Five Day", order := 1, songId := "playlist-1",
            songTitle := "S1", status := GameResultStatus.success,
            timeMs := 1000, attempts := 1, recordedAt := 10 },
          { theme := "Five Day", order := 2, songId := "playlist-2",
            songTitle := "S2", status := GameResultStatus.failed,
            timeMs := 2000, attempts := 5, recordedAt := 20 } ] }

theorem C6_load_lands_on_first_pending_witness :
    shouldStickRecent reloadState.lastCompleted 99000
      (selectDailySongs (some fiveSongPlaylist)
        (dateKeyOf (some fiveSongPlaylist) "2025-02-01")).length = false ∧
    ((allCompleteFor ((selectDailySongs (some fiveSongPlaylist)
        (dateKeyOf (some fiveSongPlaylist) "2025-02-01")).map
        (fun sg => sg.toGameSong))
        (completedOrdersFor reloadState.results
          (newThemeOf (some fiveSongPlaylist) "Daily Mix")) = false →
      ∀ j, firstPendingIndex
          (selectDailySongs (some fiveSongPlaylist)
            (dateKeyOf (some fiveSongPlaylist) "2025-02-01")).length
          (completedOrdersFor reloadState.results
            (newThemeOf (some fiveSongPlaylist) "Daily Mix")) = some j →
        (loadDailySongs (some fiveSongPlaylist) "2025-02-01" "Daily Mix" none id
          99000 reloadState).currentSongIndex = j) ∧
    (allCompleteFor ((selectDailySongs (some fiveSongPlaylist)
        (dateKeyOf (some fiveSongPlaylist) "2025-02-01")).map
        (fun sg => sg.toGameSong))
        (completedOrdersFor reloadState.results
          (newThemeOf (some fiveSongPlaylist) "Daily Mix")) = true →
      ∀ k, (migrateProgress (selectDailySongs (some fiveSongPlaylist)
          (dateKeyOf (some fiveSongPlaylist) "2025-02-01"))
          (coerceStoredProgress none)
          (dateKeyOf (some fiveSongPlaylist) "2025-02-01")).currentOrder = some k →
        1 ≤ k →
        k ≤ (selectDailySongs (some fiveSongPlaylist)
          (dateKeyOf (some fiveSongPlaylist) "2025-02-01")).length →
        (loadDailySongs (some fiveSongPlaylist) "2025-02-01" "Daily Mix" none id
          99000 reloadState).currentSongIndex = k - 1)) :=
  ⟨by decide,
   C6_load_lands_on_first_pending (some fiveSongPlaylist) "2025-02-01"
     "Daily Mix" none id 99000 reloadState (by decide)⟩

/-! ## C9: jumping to a position never persists the order pointer -/

theorem startRound_noPersist_frame (index : Nat)
    (pool : List GameSongWithOriginalId) (et : Option String)
    (dk : Option String) (tk : String)
    (sh : List GameSongWithOriginalId → List GameSongWithOriginalId)
    (now : Nat) (s : HookState) :
    (startRound index pool et false dk tk sh now s).progress = s.progress ∧
    (startRound index pool et false dk tk sh now s).results = s.results ∧
    (startRound index pool et false dk tk sh now s).theme = s.theme ∧
    (startRound index pool et false dk tk sh now s).progressDateKey =
      s.progressDateKey ∧
    (startRound index pool et false dk tk sh now s).dailySongsWithOriginalId =
      s.dailySongsWithOriginalId ∧
    (startRound index pool et false dk tk sh now s).dailySongs = s.dailySongs := by
  simp only [startRound, if_neg Bool.false_ne_true]
  split
  · simp
  · split
    · split_ifs <;> simp
    · simp

theorem startRound_attempt_of_none (index : Nat)
    (pool : List GameSongWithOriginalId) (et : Option String) (po : Bool)
    (dk : Option String) (tk : String)
    (sh : List GameSongWithOriginalId → List GameSongWithOriginalId)
    (now : Nat) (s : HookState) (h : pool.get? index = none) :
    (startRound index pool et po dk tk sh now s).attempt = s.attempt := by
  simp only [startRound, h]

theorem startRound_proj_eq (index : Nat) (pool : List GameSongWithOriginalId)
    (et : Option String) (dk : Option String) (tk : String)
    (sh : List GameSongWithOriginalId → List GameSongWithOriginalId)
    (n1 n2 : Nat) (s t : HookState)
    (hprog : t.progress = s.progress) (hres : t.results = s.results)
    (htheme : t.theme = s.theme) (hpdk : t.progressDateKey = s.progressDateKey)
    (hattn : pool.get? index = none → t.attempt = s.attempt) :
    (startRound index pool et false dk tk sh n2 t).currentSongIndex =
      (startRound index pool et false dk tk sh n1 s).currentSongIndex ∧
    (startRound index pool et false dk tk sh n2 t).currentSong =
      (startRound index pool et false dk tk sh n1 s).currentSong ∧
    (startRound index pool et false dk tk sh n2 t).choices =
      (startRound index pool et false dk tk sh n1 s).choices ∧
    (startRound index pool et false dk tk sh n2 t).attempt =
      (startRound index pool et false dk tk sh n1 s).attempt ∧
    (startRound index pool et false dk tk sh n2 t).disabledChoiceIds =
      (startRound index pool et false dk tk sh n1 s).disabledChoiceIds ∧
    (startRound index pool et false dk tk sh n2 t).gameState =
      (startRound index pool et false dk tk sh n1 s).gameState ∧
    (startRound index pool et false dk tk sh n2 t).selectedSong =
      (startRound index pool et false dk tk sh n1 s).selectedSong := by
  simp only [startRound, hprog, hres, htheme, hpdk, if_neg Bool.false_ne_true]
  split
  · rename_i heq
    simp [hattn heq]
  · split
    · split_ifs <;> simp
    · simp

theorem viewSong_eq (order : Nat) (tk : String)
    (sh : List GameSongWithOriginalId → List GameSongWithOriginalId)
    (now : Nat) (s : HookState) (h1 : 1 ≤ order)
    (h2 : order ≤ s.dailySongs.length) :
    viewSong order tk sh now s =
      startRound (order - 1) s.dailySongsWithOriginalId none false
        s.progressDateKey tk sh now { s with lastCompleted := none } := by
  unfold viewSong
  rw [if_neg (by omega : ¬(order < 1 ∨ s.dailySongs.length < order))]

theorem viewSong_frame (order : Nat) (tk : String)
    (sh : List GameSongWithOriginalId → List GameSongWithOriginalId)
    (now : Nat) (s : HookState) :
    (viewSong order tk sh now s).progress = s.progress ∧
    (viewSong order tk sh now s).results = s.results ∧
    (viewSong order tk sh now s).theme = s.theme ∧
    (viewSong order tk sh now s).progressDateKey = s.progressDateKey ∧
    (viewSong order tk sh now s).dailySongsWithOriginalId =
      s.dailySongsWithOriginalId ∧
    (viewSong order tk sh now s).dailySongs = s.dailySongs := by
  unfold viewSong
  split_ifs
  · exact ⟨rfl, rfl, rfl, rfl, rfl, rfl⟩
  · exact startRound_noPersist_frame (order - 1) s.dailySongsWithOriginalId none
      s.progressDateKey tk sh now { s with lastCompleted := none }

theorem viewSong_attempt_of_none (order : Nat) (tk : String)
    (sh : List GameSongWithOriginalId → List GameSongWithOriginalId)
    (now : Nat) (s : HookState)
    (hnone : s.dailySongsWithOriginalId.get? (order - 1) = none) :
    (viewSong order tk sh now s).attempt = s.attempt := by
  unfold viewSong
  split_ifs
  · rfl
  · exact startRound_attempt_of_none (order - 1) s.dailySongsWithOriginalId none
      false s.progressDateKey tk sh now { s with lastCompleted := none } hnone

theorem viewSong_proj_eq (k : Nat) (tk : String)
    (sh : List GameSongWithOriginalId → List GameSongWithOriginalId)
    (n1 n2 : Nat) (s t : HookState) (h1 : 1 ≤ k)
    (h2 : k ≤ s.dailySongs.length)
    (hprog : t.progress = s.progress) (hres : t.results = s.results)
    (htheme : t.theme = s.theme) (hpdk : t.progressDateKey = s.progressDateKey)
    (hdo : t.dailySongsWithOriginalId = s.dailySongsWithOriginalId)
    (hds : t.dailySongs = s.dailySongs)
    (hattn : s.dailySongsWithOriginalId.get? (k - 1) = none →
      t.attempt = s.attempt) :
    (viewSong k tk sh n2 t).currentSongIndex =
      (viewSong k tk sh n1 s).currentSongIndex ∧
    (viewSong k tk sh n2 t).currentSong = (viewSong k tk sh n1 s).currentSong ∧
    (viewSong k tk sh n2 t).choices = (viewSong k tk sh n1 s).choices ∧
    (viewSong k tk sh n2 t).attempt = (viewSong k tk sh n1 s).attempt ∧
    (viewSong k tk sh n2 t).disabledChoiceIds =
      (viewSong k tk sh n1 s).disabledChoiceIds ∧
    (viewSong k tk sh n2 t).gameState = (viewSong k tk sh n1 s).gameState ∧
    (viewSong k tk sh n2 t).selectedSong =
      (viewSong k tk sh n1 s).selectedSong := by
  rw [viewSong_eq k tk sh n2 t h1 (hds ▸ h2), viewSong_eq k tk sh n1 s h1 h2,
    hdo, hpdk]
  refine startRound_proj_eq (k - 1) s.dailySongsWithOriginalId none
    s.progressDateKey tk sh n1 n2 _ _ ?_ ?_ ?_ ?_ ?_
  · simpa using hprog
  · simpa using hres
  · simpa using htheme
  · simp
  · intro hnone
    simpa using hattn hnone

/-- C9 counterexample data: a one-song day whose target song carries a
single curated wrong choice, so the built choice list has two
distinguishable orderings. -/
def jumpState : HookState :=
  { sampleState with
      dailySongs := [oneWrongSong.toGameSong]
      dailySongsWithOriginalId := [oneWrongSong]
      results := [] }

/-- C9 counterexample: calling jumpTo(k) twice does not produce
identical Round projections — the choices component is rebuilt with
fresh randomness on every round entry, so two calls whose random
reorderings differ (here: the identity draw and the reversing draw)
yield different choices lists. -/
theorem C9_jump_counterexample :
    (viewSong 1 "2025-01-15" List.reverse 8
        (viewSong 1 "2025-01-15" id 7 jumpState)).choices ≠
      (viewSong 1 "2025-01-15" id 7 jumpState).choices := by
  decide

/-- C9 (amended): calling jumpTo(k) twice in a row with no intervening
guess leaves the whole Progress record (in particular currentOrder)
unchanged both times, and reproduces identical index, song, attempt,
disabled set, state and selection; the choices list is also identical
whenever the underlying random reordering draws the same permutation —
it is only the fresh random order (and, in the sampling path, the
fresh distractor draw) that can differ between the two calls. -/
theorem C9_jump_idempotent_amended (k : Nat) (tk : String)
    (sh : List GameSongWithOriginalId → List GameSongWithOriginalId)
    (n1 n2 : Nat) (s : HookState) (h1 : 1 ≤ k)
    (h2 : k ≤ s.dailySongs.length) :
    (viewSong k tk sh n1 s).progress = s.progress ∧
    (viewSong k tk sh n2 (viewSong k tk sh n1 s)).progress = s.progress ∧
    (viewSong k tk sh n2 (viewSong k tk sh n1 s)).currentSongIndex =
      (viewSong k tk sh n1 s).currentSongIndex ∧
    (viewSong k tk sh n2 (viewSong k tk sh n1 s)).currentSong =
      (viewSong k tk sh n1 s).currentSong ∧
    (viewSong k tk sh n2 (viewSong k tk sh n1 s)).choices =
      (viewSong k tk sh n1 s).choices ∧
    (viewSong k tk sh n2 (viewSong k tk sh n1 s)).attempt =
      (viewSong k tk sh n1 s).attempt ∧
    (viewSong k tk sh n2 (viewSong k tk sh n1 s)).disabledChoiceIds =
      (viewSong k tk sh n1 s).disabledChoiceIds ∧
    (viewSong k tk sh n2 (viewSong k tk sh n1 s)).gameState =
      (viewSong k tk sh n1 s).gameState ∧
    (viewSong k tk sh n2 (viewSong k tk sh n1 s)).selectedSong =
      (viewSong k tk sh n1 s).selectedSong := by
  have hf := viewSong_frame k tk sh n1 s
  have hf2 := viewSong_frame k tk sh n2 (viewSong k tk sh n1 s)
  have hproj := viewSong_proj_eq k tk sh n1 n2 s (viewSong k tk sh n1 s) h1 h2
    hf.1 hf.2.1 hf.2.2.1 hf.2.2.2.1 hf.2.2.2.2.1 hf.2.2.2.2.2
    (fun hnone => viewSong_attempt_of_none k tk sh n1 s hnone)
  exact ⟨hf.1, hf2.1.trans hf.1, hproj.1, hproj.2.1, hproj.2.2.1, hproj.2.2.2.1,
    hproj.2.2.2.2.1, hproj.2.2.2.2.2.1, hproj.2.2.2.2.2.2⟩

theorem C9_jump_idempotent_amended_witness :
    1 ≤ 1 ∧ 1 ≤ jumpState.dailySongs.length ∧
    ((viewSong 1 "2025-01-15" id 7 jumpState).progress = jumpState.progress ∧
    (viewSong 1 "2025-01-15" id 8 (viewSong 1 "2025-01-15" id 7
      jumpState)).progress = jumpState.progress ∧
    (viewSong 1 "2025-01-15" id 8 (viewSong 1 "2025-01-15" id 7
      jumpState)).currentSongIndex =
      (viewSong 1 "2025-01-15" id 7 jumpState).currentSongIndex ∧
    (viewSong 1 "2025-01-15" id 8 (viewSong 1 "2025-01-15" id 7
      jumpState)).currentSong =
      (viewSong 1 "2025-01-15" id 7 jumpState).currentSong ∧
    (viewSong 1 "2025-01-15" id 8 (viewSong 1 "2025-01-15" id 7
      jumpState)).choices = (viewSong 1 "2025-01-15" id 7 jumpState).choices ∧
    (viewSong 1 "2025-01-15" id 8 (viewSong 1 "2025-01-15" id 7
      jumpState)).attempt = (viewSong 1 "2025-01-15" id 7 jumpState).attempt ∧
    (viewSong 1 "2025-01-15" id 8 (viewSong 1 "2025-01-15" id 7
      jumpState)).disabledChoiceIds =
      (viewSong 1 "2025-01-15" id 7 jumpState).disabledChoiceIds ∧
    (viewSong 1 "2025-01-15" id 8 (viewSong 1 "2025-01-15" id 7
      jumpState)).gameState =
      (viewSong 1 "2025-01-15" id 7 jumpState).gameState ∧
    (viewSong 1 "2025-01-15" id 8 (viewSong 1 "2025-01-15" id 7
      jumpState)).selectedSong =
      (viewSong 1 "2025-01-15" id 7 jumpState).selectedSong) :=
  ⟨le_refl 1, by decide,
   C9_jump_idempotent_amended 1 "2025-01-15" id 7 8 jumpState (le_refl 1)
     (by decide)⟩

end SongGuess
